import Mathlib

/-!
# Verification of the Fluke 5440B asyncIO GPIB driver

A shallow embedding of `src/fluke5440b_async/fluke_5440b.py` (together with the
enums of `enums.py`, the flags of `flags.py` and the errors of `errors.py`).

The driver talks to a transport adapter (`self.__conn`) through five
primitives: `write`, `read`, `serial_poll`, `wait` and (not needed here)
`clear`/`ibloc`.  We model an execution against a *scripted transport*: a list
of events, one consumed per transport primitive invoked, each event either a
returned value or a raised exception (transport errors, timeouts, and asyncio
task cancellation are all exceptions delivered at an await point of a
primitive).  Every invocation of a transport primitive is recorded in a trace,
whether or not the primitive then raises, so the trace records exactly the
bytes that were put on the bus.

Python specifics that the embedding keeps:
  * `try/finally` runs the `finally` block on ordinary returns, on exceptions
    and on `asyncio.CancelledError`; an exception raised by the `finally`
    block replaces the in-flight one,
  * `except asyncio.TimeoutError` catches only that exception,
  * chained comparisons: `-20 > value > 20` means `(-20 > value) and (value > 20)`,
  * `Enum(...)`/`Flag(...)` conversion of an undefined value raises `ValueError`,
  * `int(str)` of a non-numeric string raises `ValueError`,
  * tuple/list/str indexing is by position, negative indices wrap once, and an
    index out of `[-len, len)` raises `IndexError`,
  * `str.split(separator)` of a string without the separator returns a
    one-element list (the driver's `read` then returns a plain string),
  * `Decimal(s)` raises `InvalidOperation` unless `s` is a decimal literal.

Numbers handed to the setters (`int | float | Decimal` in the source) are
modelled as rationals; `value = Decimal(value)` is then the identity since the
comparisons and products used by the validation agree with the rational ones.
Decimal values *parsed out of replies* are modelled as their (validated) wire
strings, since the claims about them are positional.  The asyncio session lock
serializes the calls and has no observable effect in a single-task run, so it
is not modelled.  Logging calls are not modelled.
-/

namespace Fluke5440B

/-- Exceptions that can travel through the driver.  `scriptEnd` is the
artificial exception produced when the scripted transport runs out of events
(it plays the role of an arbitrary unmodelled failure and makes every run
total). -/
inductive Exc where
  | timeoutErr
  | cancelled
  | connErr
  | scriptEnd
  | valueErr
  | typeErr
  | assertionErr
  | indexErr
  | invalidOperation
  | unicodeErr
  | deviceErr (code : Int)
  | selftestErr (selftest : String) (code : Int)
  deriving DecidableEq, Repr

/-- One recorded invocation of a transport primitive: `conn.write(bytes)`,
`conn.read()`, `conn.serial_poll()`, `conn.wait(mask)`. -/
inductive Act where
  | wr (cmd : String)
  | rd
  | spoll
  | waitSRQ
  deriving DecidableEq, Repr

/-- One scripted transport event: the transport either answers (an integer for
`serial_poll`, a byte string for `read`, ignored by `write`/`wait`) or raises. -/
inductive Ev where
  | ok (n : Int) (s : String)
  | exc (e : Exc)
  deriving DecidableEq, Repr

/-- Interpreter state: the not-yet-consumed script and the trace of transport
invocations so far. -/
structure St where
  script : List Ev
  trace : List Act
  deriving DecidableEq, Repr

/-- The driver monad: explicit exception + state passing. -/
instance {ε α : Type} [DecidableEq ε] [DecidableEq α] : DecidableEq (Except ε α) := fun x y =>
  match x, y with
  | .ok a, .ok b => if h : a = b then .isTrue (by rw [h]) else .isFalse (by simp [h])
  | .error a, .error b => if h : a = b then .isTrue (by rw [h]) else .isFalse (by simp [h])
  | .ok _, .error _ => .isFalse (by simp)
  | .error _, .ok _ => .isFalse (by simp)

def M (α : Type) := St → Except Exc α × St

def pureM {α : Type} (a : α) : M α := fun s => (.ok a, s)

def bindM {α β : Type} (m : M α) (f : α → M β) : M β := fun s =>
  match m s with
  | (.ok a, s') => f a s'
  | (.error e, s') => (.error e, s')

instance : Monad M where
  pure := pureM
  bind := bindM

def throwM {α : Type} (e : Exc) : M α := fun s => (.error e, s)

/-- Python `try ... except ...`: the handler sees the exception. -/
def catchM {α : Type} (m : M α) (h : Exc → M α) : M α := fun s =>
  match m s with
  | (.ok a, s') => (.ok a, s')
  | (.error e, s') => h e s'

/-- Python `try ... finally ...`: the `finally` block runs on every exit; an
exception it raises replaces the in-flight one. -/
def tryFinallyM {α : Type} (m : M α) (cleanup : M Unit) : M α := fun s =>
  match m s with
  | (.ok a, s') =>
    (match cleanup s' with
     | (.ok _, s'') => (.ok a, s'')
     | (.error e2, s'') => (.error e2, s''))
  | (.error e, s') =>
    (match cleanup s' with
     | (.ok _, s'') => (.error e, s'')
     | (.error e2, s'') => (.error e2, s''))

def record (a : Act) : M Unit := fun s => (.ok (), ⟨s.script, s.trace ++ [a]⟩)

def nextEv : M Ev := fun s =>
  match s.script with
  | [] => (.error .scriptEnd, s)
  | e :: rest => (.ok e, ⟨rest, s.trace⟩)

/-- `self.__conn.write(bytes)`. -/
def conn_write (cmd : String) : M Unit := do
  record (.wr cmd)
  match (← nextEv) with
  | .ok _ _ => pure ()
  | .exc e => throwM e

/-- `self.__conn.read()`. -/
def conn_read : M String := do
  record .rd
  match (← nextEv) with
  | .ok _ s => pure s
  | .exc e => throwM e

/-- `self.__conn.serial_poll()`. -/
def conn_serial_poll : M Int := do
  record .spoll
  match (← nextEv) with
  | .ok n _ => pure n
  | .exc e => throwM e

/-- `self.__conn.wait((1 << 11) | (1 << 14))`. -/
def conn_wait : M Unit := do
  record .waitSRQ
  match (← nextEv) with
  | .ok _ _ => pure ()
  | .exc e => throwM e

/-! ## Python string helpers (list-of-character based) -/

/-- Python `str.rstrip()` (the driver strips the trailing line terminator). -/
def pyRstrip (s : String) : String :=
  String.mk (s.data.reverse.dropWhile Char.isWhitespace).reverse

def splitCommaAux : List Char → List Char → List (List Char)
  | [], acc => [acc.reverse]
  | c :: rest, acc =>
    if c = ',' then acc.reverse :: splitCommaAux rest [] else splitCommaAux rest (c :: acc)

/-- Python `str.split(",")`. -/
def splitComma (s : String) : List String :=
  (splitCommaAux s.data []).map String.mk

def digitVal (c : Char) : Nat := c.toNat - 48

def decDigitsVal (l : List Char) : Option Nat :=
  if !l.isEmpty && l.all Char.isDigit then
    some (l.foldl (fun acc c => 10 * acc + digitVal c) 0)
  else none

/-- Python `int(str)` on the canonical integer strings the instrument sends
(optional sign followed by decimal digits); `none` models `ValueError`. -/
def pyInt (s : String) : Option Int :=
  match s.data with
  | '-' :: rest => (decDigitsVal rest).map (fun n => -(n : Int))
  | '+' :: rest => (decDigitsVal rest).map (fun n => (n : Int))
  | l => (decDigitsVal l).map (fun n => (n : Int))

def digitsNonempty (l : List Char) : Bool := !l.isEmpty && l.all Char.isDigit

def expTail (l : List Char) : Bool :=
  match l with
  | [] => true
  | c :: rest =>
    (c == 'e' || c == 'E') &&
      (match rest with
       | '-' :: ds => digitsNonempty ds
       | '+' :: ds => digitsNonempty ds
       | ds => digitsNonempty ds)

def unsignedDecTail (l : List Char) : Bool :=
  let ip := l.takeWhile Char.isDigit
  let rest := l.dropWhile Char.isDigit
  match rest with
  | '.' :: rest2 =>
    let fp := rest2.takeWhile Char.isDigit
    let rest3 := rest2.dropWhile Char.isDigit
    (!ip.isEmpty || !fp.isEmpty) && expTail rest3
  | rest => !ip.isEmpty && expTail rest

/-- Acceptance test of Python `decimal.Decimal(str)` for finite decimal
literals: optional sign, digits with an optional point, optional exponent. -/
def isDecimalStr (s : String) : Bool :=
  match s.data with
  | '-' :: rest => unsignedDecTail rest
  | '+' :: rest => unsignedDecTail rest
  | l => unsignedDecTail l

/-- `Decimal(s)`: the validated wire string, or `InvalidOperation`. -/
def pyDecimal (s : String) : M String :=
  if isDecimalStr s then pureM s else throwM .invalidOperation

/-- Python indexing `s[n]` (non-negative index) into a string: a one-character
string, or `IndexError`. -/
def pyStrGet (s : String) (n : Nat) : M String :=
  if n < s.data.length then pureM (String.mk [s.data.getD n ' ']) else throwM .indexErr

/-- Python indexing `l[n]` (non-negative index) into a list of strings. -/
def pyListGet (l : List String) (n : Nat) : M String :=
  if n < l.length then pureM (l.getD n "") else throwM .indexErr

/-! ## Enum and flag value sets (`enums.py`, `flags.py`)

`SerialPollFlags`: `DOING_STATE_CHANGE = 4`, `MSG_RDY = 8`, `OUTPUT_SETTLED = 16`,
`ERROR_CONDITION = 32`, `SRQ = 64`; `SrqMask` has the same bits minus `SRQ`. -/

/-- The integer values of `ErrorCode`. -/
def errorCodeValues : List Int :=
  [0, 144, 145, 146, 147, 152, 153, 154, 155, 156, 157, 158, 160,
   168, 169, 170, 171, 172, 173, 175]

def isErrorCode (n : Int) : Bool := errorCodeValues.contains n

/-- The integer values of `SelfTestErrorCode`. -/
def selfTestCodeValues : List Int :=
  [0, 8, 9, 16, 17, 18, 24, 25, 26, 27, 28, 29, 30, 32, 33, 40, 41, 42, 43,
   48, 49, 50, 51, 56, 57, 64, 72, 73, 74, 75, 80, 81, 82, 83, 87, 88, 89,
   90, 91, 92, 93, 94, 95, 96, 97, 104, 109, 110, 112, 113, 114, 115, 116,
   120, 121, 122, 123, 128, 129, 130, 131, 132, 136, 137, 138, 144, 145,
   146, 147, 152, 153, 154, 155, 156, 157, 158, 160, 168, 169, 170, 171,
   172, 173, 174, 175]

def isSelfTestCode (n : Int) : Bool := selfTestCodeValues.contains n

/-- The integer values of `DeviceState`; `IDLE = 0`. -/
def deviceStateValues : List Int :=
  [0, 16, 32, 33, 34, 35, 36, 37, 38, 39, 48, 49, 50, 51, 52, 53,
   64, 65, 66, 67, 68, 69, 80, 81, 82, 83, 84, 85, 96, 112, 113, 114,
   128, 129, 130, 208, 224, 240]

def isDeviceState (n : Int) : Bool := deviceStateValues.contains n

/-! ## Command/reply framing (`write`, `read`, `query`, §4.1) -/

/-- The result of `read()`: a plain string for a single field, else the list
of fields. -/
inductive ReadResult where
  | one (s : String)
  | many (l : List String)
  deriving DecidableEq, Repr

/-- Strip the terminator, split at the separator, unwrap singleton lists. -/
def readParse (raw : String) : ReadResult :=
  match splitComma (pyRstrip raw) with
  | [x] => .one x
  | l => .many l

/-- `read()`. -/
def read : M ReadResult := do
  let raw ← conn_read
  pure (readParse raw)

/-- `write(cmd, test_error=False)`: `cmd.encode("ascii")` (failing on
non-ASCII input), the 127-byte input-buffer check *before* any transport
write, then `conn.write`. -/
def write0 (cmd : String) : M Unit :=
  if cmd.data.all (fun c => c.toNat < 128) then
    if cmd.data.length > 127 then throwM .valueErr
    else conn_write cmd
  else throwM .unicodeErr

/-- `get_error()`: query `GERR` without error checking, parse the integer. -/
def get_error : M Int := do
  write0 "GERR"
  match (← read) with
  | .one str =>
    match pyInt str with
    | some n => pureM n
    | none => throwM .valueErr
  | .many _ => throwM .assertionErr

/-- `SerialPollFlags(n)` succeeds iff `n` is non-negative and uses only the
defined flag bits 4, 8, 16, 32, 64 (mask 124). -/
def spollValid (n : Int) : Bool := decide (0 ≤ n) && decide (n.toNat ||| 124 = 124)

/-- `serial_poll()`: `SerialPollFlags(int(conn.serial_poll()))`; a value with
undefined bits makes the `Flag` conversion raise `ValueError`. -/
def serial_poll : M Nat := do
  let n ← conn_serial_poll
  if spollValid n then pureM n.toNat else throwM .valueErr

/-- The `test_error` tail of `write`: serial-poll after the 0.2 s settle; on
an error condition drain a pending message, then fetch and decode the error
code (`ErrorCode(...)`, whose failure is a `ValueError`) and raise
`DeviceError`. -/
def writeErrCheck : M Unit := do
  let spoll ← serial_poll
  if spoll &&& 32 ≠ 0 then do
    if spoll &&& 8 ≠ 0 then do
      let _ ← read
      pure ()
    else pure ()
    let err ← get_error
    if isErrorCode err then throwM (.deviceErr err) else throwM .valueErr
  else pure ()

/-- `write(cmd, test_error)`: send, and when `test_error` is set run the
error check. -/
def write (cmd : String) (testError : Bool) : M Unit := do
  write0 cmd
  if testError then writeErrCheck else pure ()

/-- `query(cmd, test_error)` = `write` then `read`. -/
def query (cmd : String) (testError : Bool) : M ReadResult := do
  write cmd testError
  read

/-- `set_srq_mask(value)` = `write(f"SSRQ {value}", test_error=True)`;
`SrqMask.DOING_STATE_CHANGE = 4`, `SrqMask.NONE = 0`. -/
def set_srq_mask (value : Nat) : M Unit :=
  write ("SSRQ " ++ toString value) true

/-- `get_state()`: query `GDNG`, parse the integer, `DeviceState(int)`. -/
def get_state : M Int := do
  match (← query "GDNG" true) with
  | .one str =>
    match pyInt str with
    | some n => if isDeviceState n then pureM n else throwM .valueErr
    | none => throwM .valueErr
  | .many _ => throwM .assertionErr

/-- `__wait_for_rqs(raise_error)`: transport `wait` with `TimeoutError`
swallowed, serial poll, and when asked, decode an error condition — except a
`GPIB_HANDSHAKE_ERROR` (152), which is only logged. -/
def wait_for_rqs (raiseError : Bool) : M Nat := do
  catchM conn_wait (fun e =>
    match e with
    | .timeoutErr => pureM ()
    | e => throwM e)
  let spoll ← serial_poll
  if (spoll &&& 32 != 0) && raiseError then do
    let err ← get_error
    if isErrorCode err then
      if err = 152 then pureM spoll
      else throwM (.deviceErr err)
    else throwM .valueErr
  else pureM spoll

/-- The `while state != DeviceState.IDLE` loop of `__wait_for_idle`, with fuel
for the unbounded loop (running out of fuel acts like script exhaustion). -/
def waitForIdleLoop (fuel : Nat) (st : Int) : M Unit :=
  if st = 0 then pureM ()
  else
    match fuel with
    | 0 => throwM .scriptEnd
    | fuel + 1 => do
      let _ ← wait_for_rqs true
      let st' ← get_state
      waitForIdleLoop fuel st'

/-- `__wait_for_idle()`. -/
def wait_for_idle (fuel : Nat) : M Unit := do
  let st ← get_state
  waitForIdleLoop fuel st

/-! ## Self-tests and auto-calibration (§4.6) -/

/-- The `while "testing"` loop shared by the three self-tests: wait for a
service request without raising, raise `SelftestError` on an error condition,
re-read the state on a state change and stop at `IDLE`.  A state outside the
whitelist is only logged by the source, which is unobservable here. -/
def selftestLoop (name : String) : Nat → M Unit
  | 0 => throwM .scriptEnd
  | fuel + 1 => do
    let status ← wait_for_rqs false
    if status &&& 32 ≠ 0 then do
      let ec ← get_error
      if isSelfTestCode ec then throwM (.selftestErr name ec) else throwM .valueErr
    else if status &&& 4 ≠ 0 then do
      let st ← get_state
      if st = 0 then pureM () else selftestLoop name fuel
    else selftestLoop name fuel

/-- The `try` block shared by the three self-tests: ensure idle, issue the
trigger command with error checking, loop. -/
def selftestBody (name cmd : String) (fuel : Nat) : M Unit := do
  wait_for_idle fuel
  write cmd true
  selftestLoop name fuel

/-- `selftest_digital()`. -/
def selftest_digital (fuel : Nat) : M Unit := do
  set_srq_mask 4
  tryFinallyM (selftestBody "Digital" "TSTD" fuel) (set_srq_mask 0)

/-- `selftest_analog()`. -/
def selftest_analog (fuel : Nat) : M Unit := do
  set_srq_mask 4
  tryFinallyM (selftestBody "Analog" "TSTA" fuel) (set_srq_mask 0)

/-- `selftest_hv()`. -/
def selftest_hv (fuel : Nat) : M Unit := do
  set_srq_mask 4
  tryFinallyM (selftestBody "High voltage" "TSTH" fuel) (set_srq_mask 0)

/-- The `while "calibrating"` loop of `acal`: here `__wait_for_rqs` is called
with `raise_error=True` and the state is re-read unconditionally. -/
def acalLoop : Nat → M Unit
  | 0 => throwM .scriptEnd
  | fuel + 1 => do
    let _ ← wait_for_rqs true
    let st ← get_state
    if st = 0 then pureM () else acalLoop fuel

/-- The `try` block of `acal`. -/
def acalBody (fuel : Nat) : M Unit := do
  wait_for_idle fuel
  write "CALI" true
  acalLoop fuel

/-- `acal()`. -/
def acal (fuel : Nat) : M Unit := do
  set_srq_mask 4
  tryFinallyM (acalBody fuel) (set_srq_mask 0)

/-! ## Numeric wire formatting (`__limit_numeric`) -/

def digitChar (n : Nat) : Char := Char.ofNat (48 + n)

/-- Decimal digits of `n`, most significant first (`fuel`-driven so that the
kernel can evaluate it; `natDigits` always supplies enough fuel). -/
def natDigitsAux : Nat → Nat → List Char
  | 0, _ => []
  | fuel + 1, n => if n < 10 then [digitChar n] else natDigitsAux fuel (n / 10) ++ [digitChar (n % 10)]

def natDigits (n : Nat) : List Char := natDigitsAux (n + 1) n

/-- Round to the nearest integer, ties to even — the rounding used by Python's
fixed-point formatting of `int`/`float`/`Decimal` values. -/
def roundHalfEven (q : ℚ) : ℤ :=
  let f := ⌊q⌋
  let r := q - f
  if r < 1 / 2 then f
  else if 1 / 2 < r then f + 1
  else if f % 2 = 0 then f else f + 1

/-- The characters of Python `f"{value:.8f}"`. -/
def format8List (q : ℚ) : List Char :=
  let n := roundHalfEven (q * 10 ^ 8)
  let a := n.natAbs
  (if q < 0 then ['-'] else []) ++
    natDigits (a / 10 ^ 8) ++
    '.' :: (List.replicate (8 - (natDigits (a % 10 ^ 8)).length) '0' ++ natDigits (a % 10 ^ 8))

def format8 (q : ℚ) : String := String.mk (format8List q)

/-- Python `f"{result:.9s}"`: truncate a string to its first 9 characters. -/
def pyTruncate (s : String) (k : Nat) : String := String.mk (s.data.take k)

/-- `__limit_numeric(value)`: fixed 8-decimal rendering, truncated to 9
characters when `abs(value) >= 1`. -/
def limit_numeric (q : ℚ) : String :=
  if 1 ≤ |q| then pyTruncate (format8 q) 9 else format8 q

/-! ## Typed setters (`set_output`, `set_voltage_limit`, `set_current_limit`) -/

/-- The `except DeviceError ... raise ValueError` translation the limit
setters apply to `ErrorCode.LIMIT_OUT_OF_RANGE` (170). -/
def catchLimitError {α : Type} (m : M α) : M α :=
  catchM m (fun e =>
    match e with
    | .deviceErr code => if code = 170 then throwM .valueErr else throwM (.deviceErr code)
    | e => throwM e)

/-- `set_voltage_limit(value, value2=None)`.  NOTE the source's first check is
the chained comparison `if -1500 > value > 1500`. -/
def set_voltage_limit (value : ℚ) (value2 : Option ℚ) : M Unit := do
  if -1500 > value ∧ value > 1500 then throwM .valueErr
  else
    match value2 with
    | some v2 =>
      if ¬(-1500 ≤ v2 ∧ v2 ≤ 1500) then throwM .valueErr
      else if ¬(value * v2 ≤ 0) then throwM .valueErr
      else
        catchLimitError (do
          write ("SVLM " ++ limit_numeric v2) true
          write ("SVLM " ++ limit_numeric value) true)
    | none => catchLimitError (write ("SVLM " ++ limit_numeric value) true)

/-- `set_current_limit(value, value2=None)`.  NOTE the source's first check is
the chained comparison `if -20 > value > 20`. -/
def set_current_limit (value : ℚ) (value2 : Option ℚ) : M Unit := do
  if -20 > value ∧ value > 20 then throwM .valueErr
  else
    match value2 with
    | some v2 =>
      if ¬(-20 ≤ v2 ∧ v2 ≤ 20) then throwM .valueErr
      else if ¬(value * v2 ≤ 0) then throwM .valueErr
      else
        catchLimitError (do
          write ("SCLM " ++ limit_numeric v2) true
          write ("SCLM " ++ limit_numeric value) true)
    | none => catchLimitError (write ("SCLM " ++ limit_numeric value) true)

/-- `get_voltage_limit()`: query `GVLM` and return
`Decimal(result[1]), Decimal(result[0])` (left to right), with Python string
indexing when the reply had a single field. -/
def get_voltage_limit : M (String × String) := do
  match (← query "GVLM" true) with
  | .many l => do
    let d1 ← pyDecimal (← pyListGet l 1)
    let d0 ← pyDecimal (← pyListGet l 0)
    pureM (d1, d0)
  | .one str => do
    let d1 ← pyDecimal (← pyStrGet str 1)
    let d0 ← pyDecimal (← pyStrGet str 0)
    pureM (d1, d0)

/-! ## RS-232 baud rate -/

/-- `BAUD_RATES_AVAILABLE = (50, 75, 110, 134.5, 150, 200, 300, 600, 1200,
1800, 2400, 4800, 9600)`. -/
def BAUD_RATES_AVAILABLE : List ℚ :=
  [50, 75, 110, 134.5, 150, 200, 300, 600, 1200, 1800, 2400, 4800, 9600]

/-- Python `value in tuple`. -/
def pyContains (l : List ℚ) (x : ℚ) : Bool :=
  match l with
  | [] => false
  | a :: rest => if a = x then true else pyContains rest x

/-- Python `tuple.index(value)` for a value known to be present. -/
def pyIndex (l : List ℚ) (x : ℚ) : Nat :=
  match l with
  | [] => 0
  | a :: rest => if a = x then 0 else pyIndex rest x + 1

/-- Python `tuple[n]` with an `int` index: negative indices wrap once, out of
range raises `IndexError`. -/
def pyTupleGet (l : List ℚ) (n : Int) : M ℚ :=
  let i := if n < 0 then n + l.length else n
  if 0 ≤ i ∧ i < l.length then pureM (l.getD i.toNat 0) else throwM .indexErr

/-- `get_rs232_baud_rate()`: query `GBDR`, parse the integer, return
`BAUD_RATES_AVAILABLE[baud_rate]` — the indexing is unguarded. -/
def get_rs232_baud_rate : M ℚ := do
  match (← query "GBDR" true) with
  | .one str =>
    match pyInt str with
    | some n => pyTupleGet BAUD_RATES_AVAILABLE n
    | none => throwM .valueErr
  | .many _ => throwM .assertionErr

/-- Decimal rendering of the index for `f"SBDR {index:d}"`. -/
def natToStr (n : Nat) : String := String.mk (natDigits n)

/-- The `try` block of `set_rs232_baud_rate`: write `SBDR <index>`, enable
the state-change SRQ bit, settle 0.5 s, wait for idle. -/
def baudBody (value : ℚ) (fuel : Nat) : M Unit := do
  write ("SBDR " ++ natToStr (pyIndex BAUD_RATES_AVAILABLE value)) true
  set_srq_mask 4
  wait_for_idle fuel

/-- `set_rs232_baud_rate(value)`: validate against the fixed set before any
bus I/O, then under the lock run the NVRAM-write sequence, always disabling
the SRQ mask in the `finally`. -/
def set_rs232_baud_rate (value : ℚ) (fuel : Nat) : M Unit :=
  if pyContains BAUD_RATES_AVAILABLE value then
    tryFinallyM (baudBody value fuel) (set_srq_mask 0)
  else throwM .valueErr

/-! ## Calibration constants (`get_calibration_constants`) -/

/-- The record assembled from the 20 `GCAL` reply fields (`CalibrationConstants`
in the source; each `Decimal` field is modelled by its validated wire string). -/
structure CalibrationConstants where
  gain_02V : String
  gain_2V : String
  gain_10V : String
  gain_20V : String
  gain_250V : String
  gain_1000V : String
  offset_10V_pos : String
  offset_20V_pos : String
  offset_250V_pos : String
  offset_1000V_pos : String
  offset_10V_neg : String
  offset_20V_neg : String
  offset_250V_neg : String
  offset_1000V_neg : String
  gain_shift_10V : String
  gain_shift_20V : String
  gain_shift_250V : String
  gain_shift_1000V : String
  resolution_ratio : String
  adc_gain : String
  deriving DecidableEq, Repr

/-- A Python value that is either a `str` or a `list[str]` — the `typing.cast`
in the source is a runtime no-op, so `values` genuinely has this type. -/
inductive PyVal where
  | str (s : String)
  | list (l : List String)
  deriving DecidableEq, Repr

def ofReadResult (r : ReadResult) : PyVal :=
  match r with
  | .one s => .str s
  | .many l => .list l

/-- Python `values += more` for `str`/`list` operands: list extension iterates
the characters of a string; `str += list` raises `TypeError`. -/
def pyAdd (a b : PyVal) : M PyVal :=
  match a, b with
  | .list l1, .list l2 => pureM (.list (l1 ++ l2))
  | .list l1, .str s => pureM (.list (l1 ++ s.data.map (fun c => String.mk [c])))
  | .str s1, .str s2 => pureM (.str (s1 ++ s2))
  | .str _, .list _ => throwM .typeErr

def pyValGet (v : PyVal) (n : Nat) : M String :=
  match v with
  | .str s => pyStrGet s n
  | .list l => pyListGet l n

/-- `",".join(["GCAL " + str(i) for i in range(10)])`. -/
def gcalCmd1 : String := String.intercalate "," ((List.range 10).map (fun i => "GCAL " ++ natToStr i))

/-- `",".join(["GCAL " + str(i) for i in range(10, 20)])`. -/
def gcalCmd2 : String := String.intercalate "," ((List.range 10).map (fun i => "GCAL " ++ natToStr (10 + i)))

/-- The record-building tail of `get_calibration_constants`: each field goes
through `Decimal`, in the source's (keyword-argument) evaluation order. -/
def assembleCal (values : PyVal) : M CalibrationConstants := do
  let g02 ← pyDecimal (← pyValGet values 5)
  let g2 ← pyDecimal (← pyValGet values 4)
  let g10 ← pyDecimal (← pyValGet values 0)
  let g20 ← pyDecimal (← pyValGet values 1)
  let g250 ← pyDecimal (← pyValGet values 2)
  let g1000 ← pyDecimal (← pyValGet values 3)
  let o10p ← pyDecimal (← pyValGet values 6)
  let o20p ← pyDecimal (← pyValGet values 7)
  let o250p ← pyDecimal (← pyValGet values 8)
  let o1000p ← pyDecimal (← pyValGet values 9)
  let o10n ← pyDecimal (← pyValGet values 10)
  let o20n ← pyDecimal (← pyValGet values 11)
  let o250n ← pyDecimal (← pyValGet values 12)
  let o1000n ← pyDecimal (← pyValGet values 13)
  let gs10 ← pyDecimal (← pyValGet values 14)
  let gs20 ← pyDecimal (← pyValGet values 15)
  let gs250 ← pyDecimal (← pyValGet values 16)
  let gs1000 ← pyDecimal (← pyValGet values 17)
  let rr ← pyDecimal (← pyValGet values 18)
  let adc ← pyDecimal (← pyValGet values 19)
  pureM ⟨g02, g2, g10, g20, g250, g1000, o10p, o20p, o250p, o1000p,
         o10n, o20n, o250n, o1000n, gs10, gs20, gs250, gs1000, rr, adc⟩

/-- `get_calibration_constants()`: two batched `GCAL` queries (the input
buffer holds only 127 bytes), then positional assembly of the 20 ordered
reply fields. -/
def get_calibration_constants : M CalibrationConstants := do
  let r1 ← query gcalCmd1 true
  let r2 ← query gcalCmd2 true
  let values ← pyAdd (ofReadResult r1) (ofReadResult r2)
  assembleCal values

/-! ## Running an operation against a script -/

/-- Run an operation against a scripted transport, starting with an empty
trace. -/
def runOp {α : Type} (m : M α) (script : List Ev) : Except Exc α × St :=
  m ⟨script, []⟩

/-- The commands of the `SSRQ` (SRQ-mask) writes in a trace, in order. -/
def srqArg (a : Act) : Option String :=
  match a with
  | .wr c => if c.data.take 5 = "SSRQ ".data then some c else none
  | _ => none

def srqCmds (tr : List Act) : List String := tr.filterMap srqArg

/-- All commands written in a trace, in order. -/
def writesOf (tr : List Act) : List String :=
  tr.filterMap (fun a =>
    match a with
    | .wr c => some c
    | _ => none)

/-! ## Symbolic-execution lemmas

Unfolding equations that let `simp` drive a run of the interpreter one
transport event at a time. -/

@[simp] theorem bind_def {α β : Type} (m : M α) (f : α → M β) : m >>= f = bindM m f := rfl

@[simp] theorem pure_def {α : Type} (a : α) : (pure a : M α) = pureM a := rfl

@[simp] theorem pureM_apply {α : Type} (a : α) (s : St) : pureM a s = (.ok a, s) := rfl

@[simp] theorem throwM_apply {α : Type} (e : Exc) (s : St) :
    @throwM α e s = (.error e, s) := rfl

@[simp] theorem record_apply (a : Act) (s : St) :
    record a s = (.ok (), ⟨s.script, s.trace ++ [a]⟩) := rfl

@[simp] theorem nextEv_cons (e : Ev) (rest : List Ev) (tr : List Act) :
    nextEv ⟨e :: rest, tr⟩ = (.ok e, ⟨rest, tr⟩) := rfl

@[simp] theorem nextEv_nil (tr : List Act) :
    nextEv ⟨[], tr⟩ = (.error .scriptEnd, ⟨[], tr⟩) := rfl

@[simp] theorem bindM_apply {α β : Type} (m : M α) (f : α → M β) (s : St) :
    bindM m f s =
      (match m s with
       | (.ok a, s') => f a s'
       | (.error e, s') => (.error e, s')) := rfl

@[simp] theorem catchM_apply {α : Type} (m : M α) (h : Exc → M α) (s : St) :
    catchM m h s =
      (match m s with
       | (.ok a, s') => (.ok a, s')
       | (.error e, s') => h e s') := rfl

@[simp] theorem tryFinallyM_apply {α : Type} (m : M α) (cleanup : M Unit) (s : St) :
    tryFinallyM m cleanup s =
      (match m s with
       | (.ok a, s') =>
         (match cleanup s' with
          | (.ok _, s'') => (.ok a, s'')
          | (.error e2, s'') => (.error e2, s''))
       | (.error e, s') =>
         (match cleanup s' with
          | (.ok _, s'') => (.error e, s'')
          | (.error e2, s'') => (.error e2, s''))) := rfl

/-- A command that passes the ASCII and 127-byte framing checks goes straight
to the transport. -/
theorem write0_of_sendable (cmd : String)
    (h1 : cmd.data.all (fun c => c.toNat < 128) = true)
    (h2 : ¬ cmd.data.length > 127) :
    write0 cmd = conn_write cmd := by
  funext s
  unfold write0
  rw [if_pos h1, if_neg h2]

/-! ## Facts about the numeric wire formatting -/

theorem digitChar_ascii (d : Nat) (h : d < 10) : (digitChar d).toNat < 128 := by
  interval_cases d <;> decide

theorem natDigitsAux_mem (f n : Nat) (c : Char) (hc : c ∈ natDigitsAux f n) :
    ∃ d, d < 10 ∧ c = digitChar d := by
  induction f generalizing n with
  | zero => simp [natDigitsAux] at hc
  | succ f ih =>
    unfold natDigitsAux at hc
    by_cases h : n < 10
    · rw [if_pos h] at hc
      simp at hc
      exact ⟨n, h, hc⟩
    · rw [if_neg h] at hc
      rcases List.mem_append.mp hc with h1 | h2
      · exact ih _ h1
      · simp at h2
        exact ⟨n % 10, Nat.mod_lt _ (by norm_num), h2⟩

theorem natDigits_mem (n : Nat) (c : Char) (hc : c ∈ natDigits n) :
    ∃ d, d < 10 ∧ c = digitChar d := natDigitsAux_mem _ _ _ hc

theorem natDigitsAux_len_le (f n k : Nat) (h : n < 10 ^ k) (hk : 1 ≤ k) :
    (natDigitsAux f n).length ≤ k := by
  induction f generalizing n k with
  | zero => simp [natDigitsAux]
  | succ f ih =>
    unfold natDigitsAux
    by_cases hn : n < 10
    · rw [if_pos hn]
      simpa using hk
    · rw [if_neg hn]
      have hk2 : 2 ≤ k := by
        by_contra hcon
        have : k = 1 := by omega
        subst this
        simp at h
        omega
      have hdiv : n / 10 < 10 ^ (k - 1) := by
        rw [Nat.div_lt_iff_lt_mul (by norm_num)]
        calc n < 10 ^ k := h
          _ = 10 ^ (k - 1) * 10 := by
            rw [← pow_succ]
            congr 1
            omega
      have := ih (n / 10) (k - 1) hdiv (by omega)
      simp only [List.length_append, List.length_cons, List.length_nil]
      omega

theorem natDigits_len_le (n k : Nat) (h : n < 10 ^ k) (hk : 1 ≤ k) :
    (natDigits n).length ≤ k := natDigitsAux_len_le _ _ _ h hk

theorem natDigitsAux_ne_nil (f n : Nat) (hf : 1 ≤ f) : natDigitsAux f n ≠ [] := by
  match f, hf with
  | f + 1, _ =>
    unfold natDigitsAux
    by_cases hn : n < 10
    · rw [if_pos hn]
      simp
    · rw [if_neg hn]
      simp

theorem natDigits_ne_nil (n : Nat) : natDigits n ≠ [] := natDigitsAux_ne_nil _ _ (by omega)

theorem roundHalfEven_le (x : ℚ) : (roundHalfEven x : ℚ) ≤ x + 1 / 2 := by
  unfold roundHalfEven
  have hfl : (⌊x⌋ : ℚ) ≤ x := Int.floor_le x
  have hfr : x - 1 < (⌊x⌋ : ℚ) := Int.sub_one_lt_floor x
  by_cases h1 : x - ⌊x⌋ < 1 / 2
  · rw [if_pos h1]
    linarith
  · rw [if_neg h1]
    by_cases h2 : 1 / 2 < x - ⌊x⌋
    · rw [if_pos h2]
      push_cast
      linarith
    · rw [if_neg h2]
      have : x - ⌊x⌋ = 1 / 2 := by linarith
      by_cases h3 : ⌊x⌋ % 2 = 0
      · rw [if_pos h3]
        linarith
      · rw [if_neg h3]
        push_cast
        linarith

theorem le_roundHalfEven (x : ℚ) : x - 1 / 2 ≤ (roundHalfEven x : ℚ) := by
  unfold roundHalfEven
  have hfl : (⌊x⌋ : ℚ) ≤ x := Int.floor_le x
  have hfr : x - 1 < (⌊x⌋ : ℚ) := Int.sub_one_lt_floor x
  by_cases h1 : x - ⌊x⌋ < 1 / 2
  · rw [if_pos h1]
    linarith
  · rw [if_neg h1]
    by_cases h2 : 1 / 2 < x - ⌊x⌋
    · rw [if_pos h2]
      push_cast
      linarith
    · rw [if_neg h2]
      by_cases h3 : ⌊x⌋ % 2 = 0
      · rw [if_pos h3]
        linarith
      · rw [if_neg h3]
        push_cast
        linarith

/-- The fractional block of `format8List` always has exactly 8 characters. -/
theorem format8_frac_len (a : Nat) :
    (List.replicate (8 - (natDigits (a % 10 ^ 8)).length) '0' ++ natDigits (a % 10 ^ 8)).length
      = 8 := by
  have hlt : a % 10 ^ 8 < 10 ^ 8 := Nat.mod_lt _ (by norm_num)
  have hle : (natDigits (a % 10 ^ 8)).length ≤ 8 := natDigits_len_le _ 8 hlt (by norm_num)
  simp only [List.length_append, List.length_replicate]
  omega

/-- Every character of `format8List q` is ASCII. -/
theorem format8List_ascii (q : ℚ) (c : Char) (hc : c ∈ format8List q) : c.toNat < 128 := by
  unfold format8List at hc
  simp only [List.mem_append, List.mem_cons] at hc
  rcases hc with (h | h) | h | h
  · by_cases hq : q < 0
    · rw [if_pos hq] at h
      simp at h
      subst h
      decide
    · rw [if_neg hq] at h
      simp at h
  · obtain ⟨d, hd, rfl⟩ := natDigits_mem _ _ h
    exact digitChar_ascii d hd
  · subst h
    decide
  · rcases h with h1 | h2
    · have := List.eq_of_mem_replicate h1
      subst this
      decide
    · obtain ⟨d, hd, rfl⟩ := natDigits_mem _ _ h2
      exact digitChar_ascii d hd

/-- `f"{q:.8f}"` is never longer than the sign, one digit per power of ten of
the integral part, the point, and the 8 fraction digits; what matters below is
the crude bound coming from the size of the rounded scaled value. -/
theorem format8List_len (q : ℚ) (k : Nat) (hk : 1 ≤ k)
    (h : (roundHalfEven (q * 10 ^ 8)).natAbs < 10 ^ (k + 8)) :
    (format8List q).length ≤ 1 + k + 1 + 8 := by
  unfold format8List
  have hip : (roundHalfEven (q * 10 ^ 8)).natAbs / 10 ^ 8 < 10 ^ k := by
    rw [Nat.div_lt_iff_lt_mul (by norm_num)]
    calc (roundHalfEven (q * 10 ^ 8)).natAbs < 10 ^ (k + 8) := h
      _ = 10 ^ k * 10 ^ 8 := by rw [pow_add]
  have h1 : (natDigits ((roundHalfEven (q * 10 ^ 8)).natAbs / 10 ^ 8)).length ≤ k :=
    natDigits_len_le _ _ hip hk
  have h2 := format8_frac_len (roundHalfEven (q * 10 ^ 8)).natAbs
  have h3 : (if q < 0 then ['-'] else []).length ≤ 1 := by
    by_cases hq : q < 0 <;> simp [hq]
  simp only [List.length_append, List.length_replicate] at h2
  simp only [List.length_append, List.length_cons, List.length_replicate]
  omega

theorem limit_numeric_ascii (q : ℚ) (c : Char) (hc : c ∈ (limit_numeric q).data) :
    c.toNat < 128 := by
  unfold limit_numeric at hc
  by_cases h : 1 ≤ |q|
  · rw [if_pos h] at hc
    unfold pyTruncate at hc
    exact format8List_ascii q c (List.mem_of_mem_take hc)
  · rw [if_neg h] at hc
    exact format8List_ascii q c hc

theorem limit_numeric_len (q : ℚ) : (limit_numeric q).data.length ≤ 11 := by
  unfold limit_numeric
  by_cases h : 1 ≤ |q|
  · rw [if_pos h]
    unfold pyTruncate
    calc ((format8 q).data.take 9).length ≤ 9 := by
          simp [List.length_take]
      _ ≤ 11 := by norm_num
  · rw [if_neg h]
    have habs : |q * 10 ^ 8| < 10 ^ 8 := by
      rw [abs_mul]
      have h8 : |(10 : ℚ) ^ 8| = 10 ^ 8 := by
        rw [abs_of_nonneg]
        positivity
      rw [h8]
      calc |q| * 10 ^ 8 < 1 * 10 ^ 8 := by
            apply mul_lt_mul_of_pos_right _ (by positivity)
            linarith [not_le.mp h]
        _ = 10 ^ 8 := by ring
    have hub := roundHalfEven_le (q * 10 ^ 8)
    have hlb := le_roundHalfEven (q * 10 ^ 8)
    have hbound : |roundHalfEven (q * 10 ^ 8)| ≤ 10 ^ 8 := by
      rcases abs_lt.mp habs with ⟨hl, hr⟩
      rw [abs_le]
      constructor
      · by_contra hc
        push_neg at hc
        have hc' : (roundHalfEven (q * 10 ^ 8) : ℚ) ≤ -10 ^ 8 - 1 := by
          have h2 : roundHalfEven (q * 10 ^ 8) ≤ -10 ^ 8 - 1 := by omega
          exact_mod_cast h2
        norm_num at hl hr hc' hub hlb
        linarith
      · by_contra hc
        push_neg at hc
        have hc' : (10 : ℚ) ^ 8 + 1 ≤ (roundHalfEven (q * 10 ^ 8) : ℚ) := by
          have h2 : (10 : ℤ) ^ 8 + 1 ≤ roundHalfEven (q * 10 ^ 8) := by omega
          exact_mod_cast h2
        norm_num at hl hr hc' hub hlb
        linarith
    have habs2 : (roundHalfEven (q * 10 ^ 8)).natAbs < 10 ^ 9 := by
      have h1 : ((roundHalfEven (q * 10 ^ 8)).natAbs : ℤ) ≤ 10 ^ 8 := by
        rw [← Int.abs_eq_natAbs]
        exact hbound
      omega
    have := format8List_len q 1 (by norm_num) (by norm_num at habs2 ⊢; exact habs2)
    unfold format8
    calc (format8List q).length ≤ 1 + 1 + 1 + 8 := this
      _ ≤ 11 := by norm_num

/-- The `SVLM`/`SCLM`/`SOUT` commands built from `__limit_numeric` always pass
the framing checks. -/
theorem write0_limit_cmd (p : String) (q : ℚ)
    (hp1 : p.data.all (fun c => c.toNat < 128) = true)
    (hp2 : p.data.length ≤ 116) :
    write0 (p ++ limit_numeric q) = conn_write (p ++ limit_numeric q) := by
  apply write0_of_sendable
  · rw [List.all_eq_true]
    intro c hc
    rw [String.data_append] at hc
    rcases List.mem_append.mp hc with h1 | h2
    · rw [List.all_eq_true] at hp1
      exact hp1 c h1
    · simpa using limit_numeric_ascii q c h2
  · rw [String.data_append]
    simp only [List.length_append]
    have := limit_numeric_len q
    omega

/-- Rounding a value that is exactly an integer is the identity. -/
theorem roundHalfEven_intCast (m : ℤ) : roundHalfEven (m : ℚ) = m := by
  unfold roundHalfEven
  rw [Int.floor_intCast]
  norm_num

/-- Evaluation helper for `format8` at a non-negative value whose scaled
rounding is known. -/
theorem format8_of_round (q : ℚ) (a : Nat) (hq : ¬ q < 0)
    (h : roundHalfEven (q * 10 ^ 8) = (a : ℤ)) :
    format8 q = String.mk (natDigits (a / 10 ^ 8) ++
      '.' :: (List.replicate (8 - (natDigits (a % 10 ^ 8)).length) '0' ++
        natDigits (a % 10 ^ 8))) := by
  unfold format8 format8List
  rw [h, if_neg hq]
  simp [Int.natAbs_ofNat]

/-- Evaluation helper for `format8` at a negative value whose scaled rounding
is known. -/
theorem format8_of_round_neg (q : ℚ) (a : Nat) (hq : q < 0)
    (h : roundHalfEven (q * 10 ^ 8) = -(a : ℤ)) :
    format8 q = String.mk ('-' :: (natDigits (a / 10 ^ 8) ++
      '.' :: (List.replicate (8 - (natDigits (a % 10 ^ 8)).length) '0' ++
        natDigits (a % 10 ^ 8)))) := by
  unfold format8 format8List
  rw [h, if_pos hq]
  simp

/-! ## Trace extension: an operation only ever appends to the trace

`TrExt P m` states that `m` extends the trace of any starting state with
invocations all satisfying `P`, whatever the script does — this is how the
guaranteed `SSRQ` cleanup of the long operations is isolated from their
bodies, which never touch the SRQ mask. -/

def TrExt (P : Act → Prop) {α : Type} (m : M α) : Prop :=
  ∀ s : St, ∃ Δ, ((m s).2).trace = s.trace ++ Δ ∧ ∀ a ∈ Δ, P a

theorem trExt_pureM {P : Act → Prop} {α : Type} (a : α) : TrExt P (pureM a) :=
  fun s => ⟨[], by simp [pureM], by simp⟩

theorem trExt_throwM {P : Act → Prop} {α : Type} (e : Exc) : TrExt P (@throwM α e) :=
  fun s => ⟨[], by simp [throwM], by simp⟩

theorem trExt_bindM {P : Act → Prop} {α β : Type} {m : M α} {f : α → M β}
    (hm : TrExt P m) (hf : ∀ a, TrExt P (f a)) : TrExt P (bindM m f) := by
  intro s
  obtain ⟨Δ1, h1, hp1⟩ := hm s
  match hms : m s with
  | (.ok a, s') =>
    rw [hms] at h1
    obtain ⟨Δ2, h2, hp2⟩ := hf a s'
    refine ⟨Δ1 ++ Δ2, ?_, ?_⟩
    · simp only [bindM, hms]
      rw [h2, h1, List.append_assoc]
    · intro x hx
      rcases List.mem_append.mp hx with h | h
      · exact hp1 x h
      · exact hp2 x h
  | (.error e, s') =>
    rw [hms] at h1
    refine ⟨Δ1, ?_, hp1⟩
    simp only [bindM, hms]
    exact h1

theorem trExt_catchM {P : Act → Prop} {α : Type} {m : M α} {h : Exc → M α}
    (hm : TrExt P m) (hh : ∀ e, TrExt P (h e)) : TrExt P (catchM m h) := by
  intro s
  obtain ⟨Δ1, h1, hp1⟩ := hm s
  match hms : m s with
  | (.ok a, s') =>
    rw [hms] at h1
    exact ⟨Δ1, by simp only [catchM, hms]; exact h1, hp1⟩
  | (.error e, s') =>
    rw [hms] at h1
    obtain ⟨Δ2, h2, hp2⟩ := hh e s'
    refine ⟨Δ1 ++ Δ2, ?_, ?_⟩
    · simp only [catchM, hms]
      rw [h2, h1, List.append_assoc]
    · intro x hx
      rcases List.mem_append.mp hx with hx | hx
      · exact hp1 x hx
      · exact hp2 x hx

theorem trExt_tryFinallyM {P : Act → Prop} {α : Type} {m : M α} {cleanup : M Unit}
    (hm : TrExt P m) (hc : TrExt P cleanup) : TrExt P (tryFinallyM m cleanup) := by
  intro s
  obtain ⟨Δ1, h1, hp1⟩ := hm s
  match hms : m s with
  | (.ok a, s') =>
    rw [hms] at h1
    obtain ⟨Δ2, h2, hp2⟩ := hc s'
    match hcs : cleanup s' with
    | (.ok u, s'') =>
      rw [hcs] at h2
      refine ⟨Δ1 ++ Δ2, ?_, ?_⟩
      · simp only [tryFinallyM, hms, hcs]
        rw [h2, h1, List.append_assoc]
      · intro x hx
        rcases List.mem_append.mp hx with hx | hx
        · exact hp1 x hx
        · exact hp2 x hx
    | (.error e2, s'') =>
      rw [hcs] at h2
      refine ⟨Δ1 ++ Δ2, ?_, ?_⟩
      · simp only [tryFinallyM, hms, hcs]
        rw [h2, h1, List.append_assoc]
      · intro x hx
        rcases List.mem_append.mp hx with hx | hx
        · exact hp1 x hx
        · exact hp2 x hx
  | (.error e, s') =>
    rw [hms] at h1
    obtain ⟨Δ2, h2, hp2⟩ := hc s'
    match hcs : cleanup s' with
    | (.ok u, s'') =>
      rw [hcs] at h2
      refine ⟨Δ1 ++ Δ2, ?_, ?_⟩
      · simp only [tryFinallyM, hms, hcs]
        rw [h2, h1, List.append_assoc]
      · intro x hx
        rcases List.mem_append.mp hx with hx | hx
        · exact hp1 x hx
        · exact hp2 x hx
    | (.error e2, s'') =>
      rw [hcs] at h2
      refine ⟨Δ1 ++ Δ2, ?_, ?_⟩
      · simp only [tryFinallyM, hms, hcs]
        rw [h2, h1, List.append_assoc]
      · intro x hx
        rcases List.mem_append.mp hx with hx | hx
        · exact hp1 x hx
        · exact hp2 x hx

theorem trExt_record {P : Act → Prop} (a : Act) (hp : P a) : TrExt P (record a) :=
  fun s => ⟨[a], by simp [record], by simpa using hp⟩

theorem trExt_nextEv {P : Act → Prop} : TrExt P nextEv := by
  intro s
  match s with
  | ⟨[], tr⟩ => exact ⟨[], by simp [nextEv], by simp⟩
  | ⟨e :: rest, tr⟩ => exact ⟨[], by simp [nextEv], by simp⟩

theorem trExt_ite {P : Act → Prop} {α : Type} (c : Prop) [Decidable c] {m1 m2 : M α}
    (h1 : TrExt P m1) (h2 : TrExt P m2) : TrExt P (if c then m1 else m2) := by
  by_cases h : c
  · rwa [if_pos h]
  · rwa [if_neg h]

/-- Acts that do not touch the SRQ mask. -/
def NoSrq (a : Act) : Prop := srqArg a = none

theorem noSrq_rd : NoSrq .rd := rfl

theorem noSrq_spoll : NoSrq .spoll := rfl

theorem noSrq_wait : NoSrq .waitSRQ := rfl

theorem noSrq_wr (cmd : String) (h : cmd.data.take 5 ≠ "SSRQ ".data) :
    NoSrq (.wr cmd) := by
  simp [NoSrq, srqArg, h]

theorem trExt_conn_write (cmd : String) (h : NoSrq (.wr cmd)) :
    TrExt NoSrq (conn_write cmd) := by
  unfold conn_write
  apply trExt_bindM (trExt_record _ h)
  intro _
  apply trExt_bindM trExt_nextEv
  intro ev
  cases ev
  · exact trExt_pureM _
  · exact trExt_throwM _

theorem trExt_conn_read : TrExt NoSrq conn_read := by
  unfold conn_read
  apply trExt_bindM (trExt_record _ noSrq_rd)
  intro _
  apply trExt_bindM trExt_nextEv
  intro ev
  cases ev
  · exact trExt_pureM _
  · exact trExt_throwM _

theorem trExt_conn_serial_poll : TrExt NoSrq conn_serial_poll := by
  unfold conn_serial_poll
  apply trExt_bindM (trExt_record _ noSrq_spoll)
  intro _
  apply trExt_bindM trExt_nextEv
  intro ev
  cases ev
  · exact trExt_pureM _
  · exact trExt_throwM _

theorem trExt_conn_wait : TrExt NoSrq conn_wait := by
  unfold conn_wait
  apply trExt_bindM (trExt_record _ noSrq_wait)
  intro _
  apply trExt_bindM trExt_nextEv
  intro ev
  cases ev
  · exact trExt_pureM _
  · exact trExt_throwM _

theorem trExt_write0 (cmd : String) (h : NoSrq (.wr cmd)) : TrExt NoSrq (write0 cmd) := by
  unfold write0
  apply trExt_ite
  · apply trExt_ite
    · exact trExt_throwM _
    · exact trExt_conn_write cmd h
  · exact trExt_throwM _

theorem trExt_read : TrExt NoSrq read := by
  unfold read
  exact trExt_bindM trExt_conn_read (fun _ => trExt_pureM _)

theorem trExt_serial_poll : TrExt NoSrq serial_poll := by
  unfold serial_poll
  apply trExt_bindM trExt_conn_serial_poll
  intro n
  apply trExt_ite
  · exact trExt_pureM _
  · exact trExt_throwM _

theorem noSrq_GERR : NoSrq (.wr "GERR") := noSrq_wr _ (by decide)

theorem trExt_get_error : TrExt NoSrq get_error := by
  unfold get_error
  apply trExt_bindM (trExt_write0 _ noSrq_GERR)
  intro _
  apply trExt_bindM trExt_read
  intro r
  split
  · split
    · exact trExt_pureM _
    · exact trExt_throwM _
  · exact trExt_throwM _

theorem trExt_writeErrCheck : TrExt NoSrq writeErrCheck := by
  unfold writeErrCheck
  apply trExt_bindM trExt_serial_poll
  intro spoll
  apply trExt_ite
  · apply trExt_ite
    · apply trExt_bindM trExt_read
      intro _
      apply trExt_bindM (trExt_pureM _)
      intro _
      apply trExt_bindM trExt_get_error
      intro err
      apply trExt_ite
      · exact trExt_throwM _
      · exact trExt_throwM _
    · apply trExt_bindM (trExt_pureM _)
      intro _
      apply trExt_bindM trExt_get_error
      intro err
      apply trExt_ite
      · exact trExt_throwM _
      · exact trExt_throwM _
  · exact trExt_pureM _

theorem trExt_write (cmd : String) (b : Bool) (h : NoSrq (.wr cmd)) :
    TrExt NoSrq (write cmd b) := by
  unfold write
  apply trExt_bindM (trExt_write0 _ h)
  intro _
  apply trExt_ite
  · exact trExt_writeErrCheck
  · exact trExt_pureM _

theorem trExt_query (cmd : String) (b : Bool) (h : NoSrq (.wr cmd)) :
    TrExt NoSrq (query cmd b) := by
  unfold query
  exact trExt_bindM (trExt_write cmd b h) (fun _ => trExt_read)

theorem noSrq_GDNG : NoSrq (.wr "GDNG") := noSrq_wr _ (by decide)

theorem trExt_get_state : TrExt NoSrq get_state := by
  unfold get_state
  apply trExt_bindM (trExt_query _ _ noSrq_GDNG)
  intro r
  split
  · split
    · split
      · exact trExt_pureM _
      · exact trExt_throwM _
    · exact trExt_throwM _
  · exact trExt_throwM _

theorem trExt_wait_for_rqs (b : Bool) : TrExt NoSrq (wait_for_rqs b) := by
  unfold wait_for_rqs
  apply trExt_bindM
  · apply trExt_catchM trExt_conn_wait
    intro e
    cases e <;> first
      | exact trExt_pureM _
      | exact trExt_throwM _
  · intro _
    apply trExt_bindM trExt_serial_poll
    intro spoll
    apply trExt_ite
    · apply trExt_bindM trExt_get_error
      intro err
      apply trExt_ite
      · apply trExt_ite
        · exact trExt_pureM _
        · exact trExt_throwM _
      · exact trExt_throwM _
    · exact trExt_pureM _

theorem trExt_waitForIdleLoop (fuel : Nat) (st : Int) :
    TrExt NoSrq (waitForIdleLoop fuel st) := by
  induction fuel generalizing st with
  | zero =>
    unfold waitForIdleLoop
    apply trExt_ite
    · exact trExt_pureM _
    · exact trExt_throwM _
  | succ fuel ih =>
    unfold waitForIdleLoop
    apply trExt_ite
    · exact trExt_pureM _
    · apply trExt_bindM (trExt_wait_for_rqs _)
      intro _
      apply trExt_bindM trExt_get_state
      intro st'
      exact ih st'

theorem trExt_wait_for_idle (fuel : Nat) : TrExt NoSrq (wait_for_idle fuel) := by
  unfold wait_for_idle
  apply trExt_bindM trExt_get_state
  intro st
  exact trExt_waitForIdleLoop fuel st

theorem trExt_selftestLoop (name : String) (fuel : Nat) :
    TrExt NoSrq (selftestLoop name fuel) := by
  induction fuel with
  | zero => exact trExt_throwM _
  | succ fuel ih =>
    unfold selftestLoop
    apply trExt_bindM (trExt_wait_for_rqs _)
    intro status
    apply trExt_ite
    · apply trExt_bindM trExt_get_error
      intro ec
      apply trExt_ite
      · exact trExt_throwM _
      · exact trExt_throwM _
    · apply trExt_ite
      · apply trExt_bindM trExt_get_state
        intro st
        apply trExt_ite
        · exact trExt_pureM _
        · exact ih
      · exact ih

theorem trExt_acalLoop (fuel : Nat) : TrExt NoSrq (acalLoop fuel) := by
  induction fuel with
  | zero => exact trExt_throwM _
  | succ fuel ih =>
    unfold acalLoop
    apply trExt_bindM (trExt_wait_for_rqs _)
    intro _
    apply trExt_bindM trExt_get_state
    intro st
    apply trExt_ite
    · exact trExt_pureM _
    · exact ih

/-! ## The `SSRQ` write pattern of the long operations -/

/-- `conn.write` records its invocation before consulting the transport, so
the command is on the trace whatever happens next. -/
theorem conn_write_trace (cmd : String) (s : St) :
    ((conn_write cmd s).2).trace = s.trace ++ [Act.wr cmd] := by
  match s with
  | ⟨[], tr⟩ => simp [conn_write]
  | ⟨Ev.ok n t :: rest, tr⟩ => simp [conn_write]
  | ⟨Ev.exc e :: rest, tr⟩ => simp [conn_write]

/-- A `write cmd true` whose command passes the framing checks puts `cmd` on
the trace first, then only non-`SSRQ` invocations (serial poll, message
drain, `GERR`). -/
theorem write_trace (cmd : String) (hsend : write0 cmd = conn_write cmd) (s : St) :
    ∃ Δ, ((write cmd true s).2).trace = s.trace ++ Act.wr cmd :: Δ ∧ ∀ a ∈ Δ, NoSrq a := by
  unfold write
  rw [hsend]
  simp only [bind_def]
  match hcw : conn_write cmd s with
  | (.ok u, s1) =>
    have htr : s1.trace = s.trace ++ [Act.wr cmd] := by
      have := conn_write_trace cmd s
      rw [hcw] at this
      exact this
    obtain ⟨Δ, hΔ, hp⟩ := trExt_writeErrCheck s1
    refine ⟨Δ, ?_, hp⟩
    show ((bindM (conn_write cmd)
      (fun _ => if true = true then writeErrCheck else pure ()) s).2).trace = _
    simp only [bindM, hcw, if_pos]
    rw [hΔ, htr, List.append_assoc]
    rfl
  | (.error e, s1) =>
    have htr : s1.trace = s.trace ++ [Act.wr cmd] := by
      have := conn_write_trace cmd s
      rw [hcw] at this
      exact this
    refine ⟨[], ?_, by simp⟩
    show ((bindM (conn_write cmd)
      (fun _ => if true = true then writeErrCheck else pure ()) s).2).trace = _
    simp only [bindM, hcw]
    rw [htr]

theorem sendable_SSRQ4 : write0 "SSRQ 4" = conn_write "SSRQ 4" :=
  write0_of_sendable _ (by decide) (by decide)

theorem sendable_SSRQ0 : write0 "SSRQ 0" = conn_write "SSRQ 0" :=
  write0_of_sendable _ (by decide) (by decide)

theorem set_srq_mask_4_eq : set_srq_mask 4 = write "SSRQ 4" true := by
  unfold set_srq_mask
  rw [show ("SSRQ " ++ toString 4) = "SSRQ 4" by decide]

theorem set_srq_mask_0_eq : set_srq_mask 0 = write "SSRQ 0" true := by
  unfold set_srq_mask
  rw [show ("SSRQ " ++ toString 0) = "SSRQ 0" by decide]

theorem set4_trace (s : St) :
    ∃ Δ, ((set_srq_mask 4 s).2).trace = s.trace ++ Act.wr "SSRQ 4" :: Δ ∧ ∀ a ∈ Δ, NoSrq a := by
  rw [set_srq_mask_4_eq]
  exact write_trace _ sendable_SSRQ4 s

theorem set0_trace (s : St) :
    ∃ Δ, ((set_srq_mask 0 s).2).trace = s.trace ++ Act.wr "SSRQ 0" :: Δ ∧ ∀ a ∈ Δ, NoSrq a := by
  rw [set_srq_mask_0_eq]
  exact write_trace _ sendable_SSRQ0 s

theorem srqCmds_append (l1 l2 : List Act) :
    srqCmds (l1 ++ l2) = srqCmds l1 ++ srqCmds l2 := by
  unfold srqCmds
  exact List.filterMap_append l1 l2 srqArg

theorem srqCmds_nil_of (l : List Act) (h : ∀ a ∈ l, NoSrq a) : srqCmds l = [] := by
  unfold srqCmds
  exact List.filterMap_eq_nil_iff.mpr h

theorem srqArg_wr4 : srqArg (Act.wr "SSRQ 4") = some "SSRQ 4" := by decide

theorem srqArg_wr0 : srqArg (Act.wr "SSRQ 0") = some "SSRQ 0" := by decide

/-- Whatever the `try` block did, the `finally` puts the `SSRQ 0` write on
the trace, followed only by non-`SSRQ` invocations. -/
theorem finally_set0_trace (body : M Unit) (s : St) (r2 : Except Exc Unit) (s2 : St)
    (hbs : body s = (r2, s2)) :
    ∃ Δ, ((tryFinallyM body (set_srq_mask 0) s).2).trace
      = s2.trace ++ Act.wr "SSRQ 0" :: Δ ∧ ∀ a ∈ Δ, NoSrq a := by
  obtain ⟨Δ2, h0, hp⟩ := set0_trace s2
  match h0s : set_srq_mask 0 s2 with
  | (r3, s3) =>
    rw [h0s] at h0
    refine ⟨Δ2, ?_, hp⟩
    have hfin : (tryFinallyM body (set_srq_mask 0) s).2 = s3 := by
      cases r2 with
      | ok a => cases r3 with
        | ok u2 => simp [tryFinallyM, hbs, h0s]
        | error e2 => simp [tryFinallyM, hbs, h0s]
      | error e => cases r3 with
        | ok u2 => simp [tryFinallyM, hbs, h0s]
        | error e2 => simp [tryFinallyM, hbs, h0s]
    rw [hfin]
    exact h0

/-- The shared skeleton: once the initial `set_srq_mask(DOING_STATE_CHANGE)`
has returned successfully, the `SSRQ` writes of the whole operation are
exactly `SSRQ 4` followed by the final `SSRQ 0`. -/
theorem srq_pattern_core (body : M Unit) (hbody : TrExt NoSrq body) (script : List Ev)
    (u : Unit) (s1 : St) (hok : set_srq_mask 4 ⟨script, []⟩ = (.ok u, s1)) :
    srqCmds ((bindM (set_srq_mask 4)
      (fun _ => tryFinallyM body (set_srq_mask 0)) ⟨script, []⟩).2.trace)
      = ["SSRQ 4", "SSRQ 0"] := by
  obtain ⟨Δ0, h4, hp0⟩ := set4_trace ⟨script, []⟩
  rw [hok] at h4
  simp only [bindM, hok]
  obtain ⟨Δ1, hb, hp1⟩ := hbody s1
  match hbs : body s1 with
  | (r, s2) =>
    rw [hbs] at hb
    obtain ⟨Δ2, hf, hp2⟩ := finally_set0_trace body s1 r s2 hbs
    rw [hf, hb, h4]
    simp [srqCmds, List.filterMap_cons, List.filterMap_append, srqArg_wr4, srqArg_wr0,
      List.filterMap_eq_nil_iff.mpr hp0, List.filterMap_eq_nil_iff.mpr hp1,
      List.filterMap_eq_nil_iff.mpr hp2]

theorem trExt_selftestBody (name cmd : String) (fuel : Nat) (h : NoSrq (.wr cmd)) :
    TrExt NoSrq (selftestBody name cmd fuel) := by
  unfold selftestBody
  apply trExt_bindM (trExt_wait_for_idle fuel)
  intro _
  apply trExt_bindM (trExt_write cmd true h)
  intro _
  exact trExt_selftestLoop name fuel

theorem trExt_acalBody (fuel : Nat) : TrExt NoSrq (acalBody fuel) := by
  unfold acalBody
  apply trExt_bindM (trExt_wait_for_idle fuel)
  intro _
  apply trExt_bindM (trExt_write "CALI" true (noSrq_wr _ (by decide)))
  intro _
  exact trExt_acalLoop fuel

theorem selftest_digital_decomp (fuel : Nat) :
    selftest_digital fuel
      = bindM (set_srq_mask 4)
          (fun _ => tryFinallyM (selftestBody "Digital" "TSTD" fuel) (set_srq_mask 0)) := rfl

theorem selftest_analog_decomp (fuel : Nat) :
    selftest_analog fuel
      = bindM (set_srq_mask 4)
          (fun _ => tryFinallyM (selftestBody "Analog" "TSTA" fuel) (set_srq_mask 0)) := rfl

theorem selftest_hv_decomp (fuel : Nat) :
    selftest_hv fuel
      = bindM (set_srq_mask 4)
          (fun _ => tryFinallyM (selftestBody "High voltage" "TSTH" fuel) (set_srq_mask 0)) := rfl

theorem acal_decomp (fuel : Nat) :
    acal fuel
      = bindM (set_srq_mask 4)
          (fun _ => tryFinallyM (acalBody fuel) (set_srq_mask 0)) := rfl

/-- The `SSRQ` writes of `set_rs232_baud_rate` are, on every run: none (local
validation failed before any bus I/O), only the final `SSRQ 0` (the `SBDR`
write raised before the mask was set), or `SSRQ 4` followed by `SSRQ 0`. -/
theorem baud_srq_cases (value : ℚ) (fuel : Nat) (script : List Ev) :
    srqCmds ((set_rs232_baud_rate value fuel ⟨script, []⟩).2.trace) = [] ∨
    srqCmds ((set_rs232_baud_rate value fuel ⟨script, []⟩).2.trace) = ["SSRQ 0"] ∨
    srqCmds ((set_rs232_baud_rate value fuel ⟨script, []⟩).2.trace)
      = ["SSRQ 4", "SSRQ 0"] := by
  unfold set_rs232_baud_rate
  by_cases hv : pyContains BAUD_RATES_AVAILABLE value = true
  · rw [if_pos hv]
    have hsb : NoSrq (Act.wr ("SBDR " ++ natToStr (pyIndex BAUD_RATES_AVAILABLE value))) := by
      apply noSrq_wr
      rw [String.data_append]
      rw [show (5 : Nat) = "SBDR ".data.length from rfl, List.take_left]
      decide
    have hdec : baudBody value fuel
        = bindM (write ("SBDR " ++ natToStr (pyIndex BAUD_RATES_AVAILABLE value)) true)
            (fun _ => bindM (set_srq_mask 4) (fun _ => wait_for_idle fuel)) := rfl
    match hw : write ("SBDR " ++ natToStr (pyIndex BAUD_RATES_AVAILABLE value)) true
        ⟨script, []⟩ with
    | (rW, sW) =>
      obtain ⟨ΔW, hWt, hWp⟩ := trExt_write _ true hsb ⟨script, []⟩
      rw [hw] at hWt
      match rW with
      | .error e =>
        have hbody : baudBody value fuel ⟨script, []⟩ = (.error e, sW) := by
          rw [hdec]
          simp [bindM, hw]
        obtain ⟨Δ2, hf, hp2⟩ := finally_set0_trace _ _ _ _ hbody
        right
        left
        rw [hf, hWt]
        simp [srqCmds, List.filterMap_cons, List.filterMap_append, srqArg_wr0,
          List.filterMap_eq_nil_iff.mpr hWp, List.filterMap_eq_nil_iff.mpr hp2]
      | .ok uW =>
        match hs4 : set_srq_mask 4 sW with
        | (r4, s4) =>
          obtain ⟨Δ4, h4t, h4p⟩ := set4_trace sW
          rw [hs4] at h4t
          match r4 with
          | .error e4 =>
            have hbody : baudBody value fuel ⟨script, []⟩ = (.error e4, s4) := by
              rw [hdec]
              simp [bindM, hw, hs4]
            obtain ⟨Δ2, hf, hp2⟩ := finally_set0_trace _ _ _ _ hbody
            right
            right
            rw [hf, h4t, hWt]
            simp [srqCmds, List.filterMap_cons, List.filterMap_append, srqArg_wr0,
              srqArg_wr4, List.filterMap_eq_nil_iff.mpr hWp,
              List.filterMap_eq_nil_iff.mpr h4p, List.filterMap_eq_nil_iff.mpr hp2]
          | .ok u4 =>
            match hwi : wait_for_idle fuel s4 with
            | (rI, sI) =>
              obtain ⟨ΔI, hIt, hIp⟩ := trExt_wait_for_idle fuel s4
              rw [hwi] at hIt
              have hbody : baudBody value fuel ⟨script, []⟩ = (rI, sI) := by
                rw [hdec]
                simp [bindM, hw, hs4, hwi]
              obtain ⟨Δ2, hf, hp2⟩ := finally_set0_trace _ _ _ _ hbody
              right
              right
              rw [hf, hIt, h4t, hWt]
              simp [srqCmds, List.filterMap_cons, List.filterMap_append, srqArg_wr0,
                srqArg_wr4, List.filterMap_eq_nil_iff.mpr hWp,
                List.filterMap_eq_nil_iff.mpr h4p, List.filterMap_eq_nil_iff.mpr hIp,
                List.filterMap_eq_nil_iff.mpr hp2]
  · rw [if_neg hv]
    left
    rfl

/-- **C1, counterexample to the claim as stated.**  A transport whose serial
poll reports a stale error condition right after the `SSRQ 4` frame was
delivered makes `selftest_digital` raise `DeviceError` from the initial
`set_srq_mask` call — which sits *before* the `try`, so the operation returns
with the mask still at the state-changing value; its final (and only) SRQ-mask
action is `SSRQ 4`, not `SSRQ 0`. -/
theorem C1_counterexample :
    runOp (selftest_digital 1) [Ev.ok 0 "", Ev.ok 32 "", Ev.ok 0 "", Ev.ok 0 "168"]
      = (Except.error (Exc.deviceErr 168),
         ⟨[], [Act.wr "SSRQ 4", Act.spoll, Act.wr "GERR", Act.rd]⟩)
    ∧ srqCmds [Act.wr "SSRQ 4", Act.spoll, Act.wr "GERR", Act.rd] = ["SSRQ 4"]
    ∧ (srqCmds [Act.wr "SSRQ 4", Act.spoll, Act.wr "GERR", Act.rd]).getLast?
        ≠ some "SSRQ 0" :=
  ⟨by decide, by decide, by decide⟩

/-- **C1 (amended).**  For `acal`, the three self-tests and
`set_rs232_baud_rate`: on every exit path (normal completion, `DeviceError`,
`SelftestError`, transport error, task cancellation, script exhaustion), once
the initial `set_srq_mask(DOING_STATE_CHANGE)` call has returned successfully,
the operation's SRQ-mask writes are exactly `SSRQ 4` followed, last, by
`SSRQ 0`.  For `set_rs232_baud_rate` (whose mask-set sits inside the `try`)
the guarantee is unconditional: the SRQ writes of any run are `[]`,
`["SSRQ 0"]`, or `["SSRQ 4", "SSRQ 0"]`.  The claim as stated fails only on
the path of `C1_counterexample`, where the initial mask-set itself raises
after its command was delivered. -/
theorem C1_srq_cleanup (fuel : Nat) (script : List Ev) :
    (∀ u s1, set_srq_mask 4 ⟨script, []⟩ = (.ok u, s1) →
      srqCmds ((selftest_digital fuel ⟨script, []⟩).2.trace) = ["SSRQ 4", "SSRQ 0"] ∧
      srqCmds ((selftest_analog fuel ⟨script, []⟩).2.trace) = ["SSRQ 4", "SSRQ 0"] ∧
      srqCmds ((selftest_hv fuel ⟨script, []⟩).2.trace) = ["SSRQ 4", "SSRQ 0"] ∧
      srqCmds ((acal fuel ⟨script, []⟩).2.trace) = ["SSRQ 4", "SSRQ 0"]) ∧
    (∀ value : ℚ,
      srqCmds ((set_rs232_baud_rate value fuel ⟨script, []⟩).2.trace) = [] ∨
      srqCmds ((set_rs232_baud_rate value fuel ⟨script, []⟩).2.trace) = ["SSRQ 0"] ∨
      srqCmds ((set_rs232_baud_rate value fuel ⟨script, []⟩).2.trace)
        = ["SSRQ 4", "SSRQ 0"]) := by
  constructor
  · intro u s1 hok
    refine ⟨?_, ?_, ?_, ?_⟩
    · rw [selftest_digital_decomp]
      exact srq_pattern_core _ (trExt_selftestBody _ _ fuel (noSrq_wr _ (by decide)))
        script u s1 hok
    · rw [selftest_analog_decomp]
      exact srq_pattern_core _ (trExt_selftestBody _ _ fuel (noSrq_wr _ (by decide)))
        script u s1 hok
    · rw [selftest_hv_decomp]
      exact srq_pattern_core _ (trExt_selftestBody _ _ fuel (noSrq_wr _ (by decide)))
        script u s1 hok
    · rw [acal_decomp]
      exact srq_pattern_core _ (trExt_acalBody fuel) script u s1 hok
  · intro value
    exact baud_srq_cases value fuel script

/-- **C1, witness.**  The amended cleanup theorem applied to a concrete
two-event script on which the initial mask-set succeeds. -/
theorem C1_srq_cleanup_witness :
    set_srq_mask 4 ⟨[Ev.ok 0 "", Ev.ok 0 ""], []⟩
      = (.ok (), ⟨[], [Act.wr "SSRQ 4", Act.spoll]⟩) ∧
    srqCmds ((selftest_digital 1 ⟨[Ev.ok 0 "", Ev.ok 0 ""], []⟩).2.trace)
      = ["SSRQ 4", "SSRQ 0"] :=
  ⟨by decide,
   ((C1_srq_cleanup 1 [Ev.ok 0 "", Ev.ok 0 ""]).1 () ⟨[], [Act.wr "SSRQ 4", Act.spoll]⟩
     (by decide)).1⟩

/-! ## C2: the 127-byte frame limit of `write` -/

/-- **C2.**  For an ASCII command of at most 127 bytes, `write` frames the
command and hands it to the transport (one `conn.write` invocation carrying
exactly the command); for a longer command it raises `ValueError` before any
transport interaction, whatever the `test_error` flag and the transport
script. -/
theorem C2_write_size_limit (cmd : String) (script : List Ev) (b : Bool)
    (hascii : cmd.data.all (fun c => c.toNat < 128) = true) :
    (cmd.data.length ≤ 127 →
      runOp (write cmd false) [Ev.ok 0 ""] = (.ok (), ⟨[], [Act.wr cmd]⟩)) ∧
    (cmd.data.length > 127 →
      runOp (write cmd b) script = (.error .valueErr, ⟨script, []⟩)) := by
  constructor
  · intro hlen
    have hs := write0_of_sendable cmd hascii (by omega)
    simp [runOp, write, hs, conn_write]
  · intro hlen
    have hw0 : write0 cmd = throwM .valueErr := by
      unfold write0
      rw [if_pos hascii, if_pos hlen]
    simp [runOp, write, hw0]

set_option maxRecDepth 4000 in
/-- **C2, witness.**  `GOUT` (4 bytes) is framed and sent; a 128-byte command
raises the size error before any transport write. -/
theorem C2_write_size_limit_witness :
    (("GOUT".data.all (fun c => c.toNat < 128)) = true ∧ "GOUT".data.length ≤ 127 ∧
      runOp (write "GOUT" false) [Ev.ok 0 ""] = (.ok (), ⟨[], [Act.wr "GOUT"]⟩)) ∧
    ((String.mk (List.replicate 128 'A')).data.all (fun c => c.toNat < 128) = true ∧
      (String.mk (List.replicate 128 'A')).data.length > 127 ∧
      runOp (write (String.mk (List.replicate 128 'A')) false) []
        = (.error .valueErr, ⟨[], []⟩)) :=
  ⟨⟨by decide, by decide,
    (C2_write_size_limit "GOUT" [] false (by decide)).1 (by decide)⟩,
   ⟨by decide, by decide,
    (C2_write_size_limit (String.mk (List.replicate 128 'A')) [] false (by decide)).2
      (by decide)⟩⟩

/-! ## C4: the broken chained comparison in `set_current_limit` -/

theorem limit_numeric_25 : limit_numeric (25 : ℚ) = "25.000000" := by
  have hr : roundHalfEven ((25 : ℚ) * 10 ^ 8) = ((2500000000 : ℕ) : ℤ) := by
    rw [show ((25 : ℚ) * 10 ^ 8) = ((2500000000 : ℤ) : ℚ) by norm_num]
    rw [roundHalfEven_intCast]
    norm_num
  have hf := format8_of_round 25 2500000000 (by norm_num) hr
  unfold limit_numeric
  rw [if_pos (by norm_num : (1 : ℚ) ≤ |(25 : ℚ)|), hf]
  decide

/-- **C4 (code bug).**  `set_current_limit(25)` (second value omitted) never
raises the local `ValueError`: the source's range check is the chained
comparison `if -20 > value > 20`, i.e. `(-20 > value) and (value > 20)`, which
no value satisfies.  The out-of-range limit 25 therefore goes straight to the
bus as `SCLM 25.000000` (and the device's own rejection would only come back
after that bus transaction). -/
theorem C4_current_limit_bug :
    runOp (set_current_limit 25 none) [Ev.ok 0 "", Ev.ok 0 ""]
      = (.ok (), ⟨[], [Act.wr "SCLM 25.000000", Act.spoll]⟩) := by
  have hcond : ¬((-20 : ℚ) > 25 ∧ (25 : ℚ) > 20) := by norm_num
  have hsend : write0 "SCLM 25.000000" = conn_write "SCLM 25.000000" :=
    write0_of_sendable _ (by decide) (by decide)
  have hsp : spollValid 0 = true := by decide
  have ht : (0 : Int).toNat = 0 := by decide
  have ha : (0 : Nat) &&& 32 = 0 := by decide
  simp [runOp, set_current_limit, hcond, limit_numeric_25, catchLimitError, write, hsend,
    conn_write, serial_poll, conn_serial_poll, hsp, ht, ha, writeErrCheck]

/-! ## C5: voltage-limit polarity validation -/

/-- **C5.**  Two voltage limits of the same strict sign are rejected by the
local validation (`ValueError`) before any bus transaction, on any transport
script; a pair with one value strictly positive and the other non-positive —
in either argument order — and both of magnitude at most 1500, passes the
validation and reaches the bus as the two `SVLM` writes (second value first,
as the source sends them). -/
theorem C5_voltage_limit_validation (a b : ℚ) (script : List Ev) :
    ((0 < a ∧ 0 < b) ∨ (a < 0 ∧ b < 0) →
      runOp (set_voltage_limit a (some b)) script = (.error .valueErr, ⟨script, []⟩)) ∧
    ((0 < a ∧ b ≤ 0) ∨ (a ≤ 0 ∧ 0 < b) → |a| ≤ 1500 → |b| ≤ 1500 →
      runOp (set_voltage_limit a (some b)) [Ev.ok 0 "", Ev.ok 0 "", Ev.ok 0 "", Ev.ok 0 ""]
        = (.ok (), ⟨[], [Act.wr ("SVLM " ++ limit_numeric b), Act.spoll,
                         Act.wr ("SVLM " ++ limit_numeric a), Act.spoll]⟩)) := by
  have hchain : ¬((-1500 : ℚ) > a ∧ a > 1500) := by
    rintro ⟨h1, h2⟩
    linarith
  constructor
  · intro hsign
    by_cases hb2 : (-1500 : ℚ) ≤ b ∧ b ≤ 1500
    · have hprod : ¬(a * b ≤ 0) := by
        push_neg
        rcases hsign with ⟨ha, hb⟩ | ⟨ha, hb⟩
        · exact mul_pos ha hb
        · exact mul_pos_of_neg_of_neg ha hb
      simp [runOp, set_voltage_limit, hchain, hb2, hprod, throwM]
    · simp [runOp, set_voltage_limit, hchain, hb2, throwM]
  · intro hmix hra hrb
    have hb2 : (-1500 : ℚ) ≤ b ∧ b ≤ 1500 := abs_le.mp hrb
    have hprod : a * b ≤ 0 := by
      rcases hmix with ⟨ha, hb⟩ | ⟨ha, hb⟩
      · exact mul_nonpos_iff.mpr (Or.inl ⟨le_of_lt ha, hb⟩)
      · exact mul_nonpos_iff.mpr (Or.inr ⟨ha, le_of_lt hb⟩)
    have hsb := write0_limit_cmd "SVLM " b (by decide) (by decide)
    have hsa := write0_limit_cmd "SVLM " a (by decide) (by decide)
    have hsp : spollValid 0 = true := by decide
    have ht : (0 : Int).toNat = 0 := by decide
    have hA : (0 : Nat) &&& 32 = 0 := by decide
    simp [runOp, set_voltage_limit, hchain, hb2, hprod, catchLimitError, write, hsb, hsa,
      conn_write, serial_poll, conn_serial_poll, hsp, ht, hA, writeErrCheck]

/-- **C5, witness.**  `(3, 5)` (both positive) is rejected locally with an
empty trace; `(10, −10)` and the spec's own vector `(−10, 10)` — the
non-positive value first — both pass validation and produce the two `SVLM`
writes. -/
theorem C5_voltage_limit_validation_witness :
    ((0 < (3 : ℚ) ∧ 0 < (5 : ℚ)) ∧
      runOp (set_voltage_limit 3 (some 5)) [] = (.error .valueErr, ⟨[], []⟩)) ∧
    ((0 < (10 : ℚ) ∧ (-10 : ℚ) ≤ 0) ∧ |(10 : ℚ)| ≤ 1500 ∧ |(-10 : ℚ)| ≤ 1500 ∧
      runOp (set_voltage_limit 10 (some (-10)))
        [Ev.ok 0 "", Ev.ok 0 "", Ev.ok 0 "", Ev.ok 0 ""]
        = (.ok (), ⟨[], [Act.wr ("SVLM " ++ limit_numeric (-10)), Act.spoll,
                         Act.wr ("SVLM " ++ limit_numeric 10), Act.spoll]⟩)) ∧
    (((-10 : ℚ) ≤ 0 ∧ 0 < (10 : ℚ)) ∧ |(-10 : ℚ)| ≤ 1500 ∧ |(10 : ℚ)| ≤ 1500 ∧
      runOp (set_voltage_limit (-10) (some 10))
        [Ev.ok 0 "", Ev.ok 0 "", Ev.ok 0 "", Ev.ok 0 ""]
        = (.ok (), ⟨[], [Act.wr ("SVLM " ++ limit_numeric 10), Act.spoll,
                         Act.wr ("SVLM " ++ limit_numeric (-10)), Act.spoll]⟩)) :=
  ⟨⟨by norm_num, (C5_voltage_limit_validation 3 5 []).1 (Or.inl (by norm_num))⟩,
   ⟨by norm_num, by norm_num, by norm_num,
    (C5_voltage_limit_validation 10 (-10) []).2 (Or.inl (by norm_num)) (by norm_num)
      (by norm_num)⟩,
   ⟨by norm_num, by norm_num, by norm_num,
    (C5_voltage_limit_validation (-10) 10 []).2 (Or.inr (by norm_num)) (by norm_num)
      (by norm_num)⟩⟩

/-! ## C8: the shape of the numeric wire form -/

theorem digitChar_isDigit (d : Nat) (h : d < 10) : (digitChar d).isDigit = true := by
  interval_cases d <;> decide

theorem take_point (ipL B : List Char) (n k : Nat) (hn : n = k + 1) (hk : ipL.length ≤ k) :
    (ipL ++ '.' :: B).take n = ipL ++ '.' :: B.take (k - ipL.length) := by
  subst hn
  rw [List.take_append_eq_append_take, List.take_of_length_le (by omega)]
  congr 1
  rw [show k + 1 - ipL.length = (k - ipL.length) + 1 by omega, List.take_succ_cons]

theorem format8_data (q : ℚ) : (format8 q).data = format8List q := rfl

/-- **C8, counterexample to the claim as stated.**  For `value = -3/2`
(magnitude ≥ 1) the truncated 9-character wire form is `-1.500000`: the sign
occupies one character, so the string holds the decimal point plus only 7
significant digits, not 8. -/
theorem C8_counterexample :
    limit_numeric (-3 / 2 : ℚ) = "-1.500000" ∧
    (("-1.500000").data.filter (fun c => c.isDigit)).length = 7 ∧
    ¬((("-1.500000").data.filter (fun c => c.isDigit)).length = 8) := by
  have hr : roundHalfEven ((-3 / 2 : ℚ) * 10 ^ 8) = -((150000000 : ℕ) : ℤ) := by
    rw [show ((-3 / 2 : ℚ) * 10 ^ 8) = ((-150000000 : ℤ) : ℚ) by norm_num]
    rw [roundHalfEven_intCast]
    norm_num
  have hf := format8_of_round_neg (-3 / 2) 150000000 (by norm_num) hr
  refine ⟨?_, by decide, by decide⟩
  unfold limit_numeric
  rw [if_pos (by rw [abs_of_neg (by norm_num : (-3 / 2 : ℚ) < 0)]; norm_num), hf]
  decide

/-- **C8 (amended).**  `__limit_numeric` renders the value with exactly 8
fractional digits (the rendering is sign, integral digits, point, and an
8-character all-digit fraction), and truncates to the first 9 characters when
the magnitude is at least 1.  Those 9 characters are the decimal point plus 8
significant digits for `1 ≤ value ≤ 10^8 − 1`; for negative values the sign
occupies a character: for `−(10^7 − 1) ≤ value ≤ −1` they are the sign, the
decimal point and 7 significant digits. -/
theorem C8_limit_numeric_shape (q : ℚ) :
    (∃ sgn ip fp, (format8 q).data = sgn ++ ip ++ '.' :: fp ∧
      (sgn = [] ∨ sgn = ['-']) ∧ (∀ c ∈ ip, c.isDigit = true) ∧
      (∀ c ∈ fp, c.isDigit = true) ∧ ip ≠ [] ∧ fp.length = 8) ∧
    (1 ≤ |q| → limit_numeric q = pyTruncate (format8 q) 9) ∧
    (1 ≤ q → q ≤ 10 ^ 8 - 1 →
      ∃ ip fp, (limit_numeric q).data = ip ++ '.' :: fp ∧
        (∀ c ∈ ip, c.isDigit = true) ∧ (∀ c ∈ fp, c.isDigit = true) ∧
        ip.length + fp.length = 8) ∧
    (q ≤ -1 → -(10 ^ 7 - 1) ≤ q →
      ∃ ip fp, (limit_numeric q).data = '-' :: (ip ++ '.' :: fp) ∧
        (∀ c ∈ ip, c.isDigit = true) ∧ (∀ c ∈ fp, c.isDigit = true) ∧
        ip.length + fp.length = 7) := by
  have hBdig : ∀ a : Nat, ∀ c ∈ List.replicate (8 - (natDigits (a % 10 ^ 8)).length) '0' ++
      natDigits (a % 10 ^ 8), c.isDigit = true := by
    intro a c hc
    rcases List.mem_append.mp hc with h | h
    · rw [List.eq_of_mem_replicate h]
      decide
    · obtain ⟨d, hd, rfl⟩ := natDigits_mem _ _ h
      exact digitChar_isDigit d hd
  have hipdig : ∀ m : Nat, ∀ c ∈ natDigits m, c.isDigit = true := by
    intro m c hc
    obtain ⟨d, hd, rfl⟩ := natDigits_mem _ _ hc
    exact digitChar_isDigit d hd
  refine ⟨?_, ?_, ?_, ?_⟩
  · -- shape of the full rendering
    rw [format8_data]
    unfold format8List
    refine ⟨if q < 0 then ['-'] else [], _, _, by rw [List.append_assoc], ?_, hipdig _,
      hBdig _, natDigits_ne_nil _, format8_frac_len _⟩
    by_cases hq : q < 0
    · rw [if_pos hq]
      right
      rfl
    · rw [if_neg hq]
      left
      rfl
  · intro h
    unfold limit_numeric
    rw [if_pos h]
  · -- positive branch
    intro h1 h2
    have hq0 : ¬ q < 0 := by linarith
    have hub := roundHalfEven_le (q * 10 ^ 8)
    have hlb := le_roundHalfEven (q * 10 ^ 8)
    have hxge : (10 : ℚ) ^ 8 ≤ q * 10 ^ 8 := by
      have := mul_le_mul_of_nonneg_right h1 (by positivity : (0 : ℚ) ≤ 10 ^ 8)
      linarith
    have hxle : q * 10 ^ 8 ≤ 9999999900000000 := by
      have := mul_le_mul_of_nonneg_right h2 (by positivity : (0 : ℚ) ≤ 10 ^ 8)
      norm_num at this ⊢
      linarith
    have hge : (10 : ℤ) ^ 8 ≤ roundHalfEven (q * 10 ^ 8) := by
      by_contra hc
      push_neg at hc
      have hc' : (roundHalfEven (q * 10 ^ 8) : ℚ) ≤ 10 ^ 8 - 1 := by
        have h3 : roundHalfEven (q * 10 ^ 8) ≤ 10 ^ 8 - 1 := by omega
        exact_mod_cast h3
      norm_num at hc' hxge hlb
      linarith
    have hlt : roundHalfEven (q * 10 ^ 8) < 10 ^ 16 := by
      by_contra hc
      push_neg at hc
      have hc' : (10 : ℚ) ^ 16 ≤ (roundHalfEven (q * 10 ^ 8) : ℚ) := by
        exact_mod_cast hc
      norm_num at hc' hxle hub
      linarith
    have hage : 10 ^ 8 ≤ (roundHalfEven (q * 10 ^ 8)).natAbs := by
      have h0 : (0 : ℤ) ≤ roundHalfEven (q * 10 ^ 8) := le_trans (by norm_num) hge
      omega
    have halt : (roundHalfEven (q * 10 ^ 8)).natAbs < 10 ^ 16 := by
      have h0 : (0 : ℤ) ≤ roundHalfEven (q * 10 ^ 8) := le_trans (by norm_num) hge
      omega
    have hAge : 1 ≤ (roundHalfEven (q * 10 ^ 8)).natAbs / 10 ^ 8 :=
      (Nat.one_le_div_iff (by norm_num)).mpr hage
    have hAlt : (roundHalfEven (q * 10 ^ 8)).natAbs / 10 ^ 8 < 10 ^ 8 := by
      rw [Nat.div_lt_iff_lt_mul (by norm_num)]
      calc (roundHalfEven (q * 10 ^ 8)).natAbs < 10 ^ 16 := halt
        _ = 10 ^ 8 * 10 ^ 8 := by norm_num
    have hk : (natDigits ((roundHalfEven (q * 10 ^ 8)).natAbs / 10 ^ 8)).length ≤ 8 :=
      natDigits_len_le _ 8 hAlt (by norm_num)
    have hB := format8_frac_len (roundHalfEven (q * 10 ^ 8)).natAbs
    unfold limit_numeric
    rw [if_pos (by rw [abs_of_nonneg (by linarith : (0 : ℚ) ≤ q)]; exact h1)]
    unfold pyTruncate
    rw [format8_data]
    unfold format8List
    rw [if_neg hq0]
    simp only [List.nil_append]
    rw [take_point _ _ 9 8 rfl hk]
    refine ⟨_, _, rfl, hipdig _, ?_, ?_⟩
    · intro c hc
      exact hBdig _ c (List.mem_of_mem_take hc)
    · rw [List.length_take, hB]
      omega
  · -- negative branch
    intro h1 h2
    have hq0 : q < 0 := by linarith
    have hub := roundHalfEven_le (q * 10 ^ 8)
    have hlb := le_roundHalfEven (q * 10 ^ 8)
    have hxle : q * 10 ^ 8 ≤ -(10 : ℚ) ^ 8 := by
      have := mul_le_mul_of_nonneg_right h1 (by positivity : (0 : ℚ) ≤ 10 ^ 8)
      linarith
    have hxge : -(999999900000000 : ℚ) ≤ q * 10 ^ 8 := by
      have := mul_le_mul_of_nonneg_right h2 (by positivity : (0 : ℚ) ≤ 10 ^ 8)
      norm_num at this ⊢
      linarith
    have hle : roundHalfEven (q * 10 ^ 8) ≤ -(10 ^ 8) := by
      by_contra hc
      push_neg at hc
      have hc' : (-(10 : ℚ) ^ 8) + 1 ≤ (roundHalfEven (q * 10 ^ 8) : ℚ) := by
        have h3 : -(10 ^ 8) + 1 ≤ roundHalfEven (q * 10 ^ 8) := by omega
        exact_mod_cast h3
      norm_num at hc' hxle hub
      linarith
    have hgt : -(999999900000000 : ℤ) ≤ roundHalfEven (q * 10 ^ 8) := by
      by_contra hc
      push_neg at hc
      have hc' : (roundHalfEven (q * 10 ^ 8) : ℚ) ≤ -(999999900000000 : ℚ) - 1 := by
        have h3 : roundHalfEven (q * 10 ^ 8) ≤ -999999900000000 - 1 := by omega
        exact_mod_cast h3
      norm_num at hc' hxge hlb
      linarith
    have hage : 10 ^ 8 ≤ (roundHalfEven (q * 10 ^ 8)).natAbs := by omega
    have halt : (roundHalfEven (q * 10 ^ 8)).natAbs < 10 ^ 15 := by omega
    have hAge : 1 ≤ (roundHalfEven (q * 10 ^ 8)).natAbs / 10 ^ 8 :=
      (Nat.one_le_div_iff (by norm_num)).mpr hage
    have hAlt : (roundHalfEven (q * 10 ^ 8)).natAbs / 10 ^ 8 < 10 ^ 7 := by
      rw [Nat.div_lt_iff_lt_mul (by norm_num)]
      calc (roundHalfEven (q * 10 ^ 8)).natAbs < 10 ^ 15 := halt
        _ = 10 ^ 7 * 10 ^ 8 := by norm_num
    have hk : (natDigits ((roundHalfEven (q * 10 ^ 8)).natAbs / 10 ^ 8)).length ≤ 7 :=
      natDigits_len_le _ 7 hAlt (by norm_num)
    have hB := format8_frac_len (roundHalfEven (q * 10 ^ 8)).natAbs
    unfold limit_numeric
    rw [if_pos (by rw [abs_of_neg hq0]; linarith)]
    unfold pyTruncate
    rw [format8_data]
    unfold format8List
    rw [if_pos hq0]
    simp only [List.singleton_append, List.cons_append, List.nil_append]
    rw [show ((9 : Nat) = 8 + 1) from rfl, List.take_succ_cons]
    rw [take_point _ _ 8 7 rfl hk]
    refine ⟨_, _, rfl, hipdig _, ?_, ?_⟩
    · intro c hc
      exact hBdig _ c (List.mem_of_mem_take hc)
    · rw [List.length_take, hB]
      omega

/-- **C8, witness.**  The shape theorem applied at `10`: truncation applies
(`|10| ≥ 1`), and the 9 characters split as digits, point, digits with 8
digits in total. -/
theorem C8_limit_numeric_shape_witness :
    (1 ≤ |(10 : ℚ)| ∧ limit_numeric 10 = pyTruncate (format8 10) 9) ∧
    (1 ≤ (10 : ℚ) ∧ (10 : ℚ) ≤ 10 ^ 8 - 1 ∧
      ∃ ip fp, (limit_numeric 10).data = ip ++ '.' :: fp ∧
        (∀ c ∈ ip, c.isDigit = true) ∧ (∀ c ∈ fp, c.isDigit = true) ∧
        ip.length + fp.length = 8) :=
  ⟨⟨by norm_num, (C8_limit_numeric_shape 10).2.1 (by norm_num)⟩,
   ⟨by norm_num, by norm_num,
    (C8_limit_numeric_shape 10).2.2.1 (by norm_num) (by norm_num)⟩⟩

/-! ## C9: the swapped pair of `get_voltage_limit` -/

/-- **C9.**  On a two-field `GVLM` reply, `get_voltage_limit` returns
`(Decimal(result[1]), Decimal(result[0]))` — the second field first; on a
single-field reply (`read` returns a plain string), `result[1]` and
`result[0]` are Python *character* indexing, so the pair consists of the
one-character decimals at positions 1 and 0. -/
theorem C9_voltage_limit_swap (a b t raw1 raw2 : String)
    (h2f : readParse raw1 = .many [a, b])
    (ha : isDecimalStr a = true) (hb : isDecimalStr b = true)
    (h1f : readParse raw2 = .one t) (hlen : 2 ≤ t.data.length)
    (hc1 : isDecimalStr (String.mk [t.data.getD 1 ' ']) = true)
    (hc0 : isDecimalStr (String.mk [t.data.getD 0 ' ']) = true) :
    (runOp get_voltage_limit [Ev.ok 0 "", Ev.ok 0 "", Ev.ok 0 raw1]).1 = .ok (b, a) ∧
    (runOp get_voltage_limit [Ev.ok 0 "", Ev.ok 0 "", Ev.ok 0 raw2]).1
      = .ok (String.mk [t.data.getD 1 ' '], String.mk [t.data.getD 0 ' ']) := by
  have hsend : write0 "GVLM" = conn_write "GVLM" := write0_of_sendable _ (by decide) (by decide)
  have hsp : spollValid 0 = true := by decide
  have ht0 : (0 : Int).toNat = 0 := by decide
  have hA : (0 : Nat) &&& 32 = 0 := by decide
  have hlen' : 2 ≤ t.length := hlen
  have hl1 : (1 : Nat) < t.length := by omega
  have hl0 : (0 : Nat) < t.length := by omega
  have hl1d : (1 : Nat) < t.data.length := hl1
  have hl0d : (0 : Nat) < t.data.length := hl0
  rw [List.getD_eq_getElem _ _ hl1d] at hc1
  rw [List.getD_eq_getElem _ _ hl0d] at hc0
  constructor
  · simp [runOp, get_voltage_limit, query, write, hsend, conn_write, read, conn_read,
      serial_poll, conn_serial_poll, hsp, ht0, hA, h2f, pyListGet, pyDecimal, ha, hb,
      writeErrCheck]
  · simp [runOp, get_voltage_limit, query, write, hsend, conn_write, read, conn_read,
      serial_poll, conn_serial_poll, hsp, ht0, hA, h1f, pyStrGet, pyDecimal, hl1, hl0,
      hc1, hc0, writeErrCheck]

/-- **C9, witness.**  Reply `-10,10` gives `("10", "-10")`; the single-field
reply `42` is indexed character-wise, giving `("2", "4")`. -/
theorem C9_voltage_limit_swap_witness :
    (runOp get_voltage_limit [Ev.ok 0 "", Ev.ok 0 "", Ev.ok 0 "-10,10"]).1
      = .ok ("10", "-10") ∧
    (runOp get_voltage_limit [Ev.ok 0 "", Ev.ok 0 "", Ev.ok 0 "42"]).1 = .ok ("2", "4") := by
  have h := C9_voltage_limit_swap "-10" "10" "42" "-10,10" "42"
    (by decide) (by decide) (by decide) (by decide) (by decide) (by decide) (by decide)
  exact ⟨h.1, h.2⟩

/-! ## C10: unguarded indexing in `get_rs232_baud_rate` -/

/-- **C10, counterexample to the claim as stated.**  The integer reply `-1`
is outside `0..12`, yet Python's negative tuple indexing silently returns
`BAUD_RATES_AVAILABLE[-1] = 9600` instead of raising `IndexError`. -/
theorem C10_counterexample :
    (runOp get_rs232_baud_rate [Ev.ok 0 "", Ev.ok 0 "", Ev.ok 0 "-1"]).1
      = .ok (9600 : ℚ) ∧
    (runOp get_rs232_baud_rate [Ev.ok 0 "", Ev.ok 0 "", Ev.ok 0 "-1"]).1
      ≠ .error .indexErr :=
  ⟨by decide, by decide⟩

/-- **C10 (amended).**  For an integer reply `n` to `GBDR`: `0 ≤ n ≤ 12`
returns the `n`-th table entry; `n ≥ 13` or `n ≤ −14` hits the unguarded
indexing and raises `IndexError`; but `−13 ≤ n ≤ −1` wraps around (Python
negative indexing) and silently returns entry `n + 13`. -/
theorem C10_baud_decode (t : String) (n : Int)
    (hrp : readParse t = .one t) (hpi : pyInt t = some n) :
    (0 ≤ n → n ≤ 12 →
      (runOp get_rs232_baud_rate [Ev.ok 0 "", Ev.ok 0 "", Ev.ok 0 t]).1
        = .ok (BAUD_RATES_AVAILABLE.getD n.toNat 0)) ∧
    (13 ≤ n ∨ n ≤ -14 →
      (runOp get_rs232_baud_rate [Ev.ok 0 "", Ev.ok 0 "", Ev.ok 0 t]).1
        = .error .indexErr) ∧
    (-13 ≤ n → n ≤ -1 →
      (runOp get_rs232_baud_rate [Ev.ok 0 "", Ev.ok 0 "", Ev.ok 0 t]).1
        = .ok (BAUD_RATES_AVAILABLE.getD (n + 13).toNat 0)) := by
  have hsend : write0 "GBDR" = conn_write "GBDR" := write0_of_sendable _ (by decide) (by decide)
  have hsp : spollValid 0 = true := by decide
  have ht0 : (0 : Int).toNat = 0 := by decide
  have hA : (0 : Nat) &&& 32 = 0 := by decide
  have hlen : BAUD_RATES_AVAILABLE.length = 13 := rfl
  have hpre : runOp get_rs232_baud_rate [Ev.ok 0 "", Ev.ok 0 "", Ev.ok 0 t]
      = pyTupleGet BAUD_RATES_AVAILABLE n ⟨[], [Act.wr "GBDR", Act.spoll, Act.rd]⟩ := by
    simp [runOp, get_rs232_baud_rate, query, write, hsend, conn_write, read, conn_read,
      serial_poll, conn_serial_poll, hsp, ht0, hA, hrp, hpi, writeErrCheck]
  refine ⟨?_, ?_, ?_⟩
  · intro hn0 hn12
    rw [hpre]
    unfold pyTupleGet
    rw [hlen, if_neg (by omega : ¬ n < 0)]
    simp only [Nat.cast_ofNat]
    rw [if_pos (by omega : 0 ≤ n ∧ n < 13)]
    rfl
  · intro hout
    rw [hpre]
    unfold pyTupleGet
    rw [hlen]
    rcases hout with h13 | h14
    · rw [if_neg (by omega : ¬ n < 0)]
      simp only [Nat.cast_ofNat]
      rw [if_neg (by omega : ¬ (0 ≤ n ∧ n < 13))]
      rfl
    · rw [if_pos (by omega : n < 0)]
      simp only [Nat.cast_ofNat]
      rw [if_neg (by omega : ¬ (0 ≤ n + 13 ∧ n + 13 < 13))]
      rfl
  · intro hn13 hn1
    rw [hpre]
    unfold pyTupleGet
    rw [hlen, if_pos (by omega : n < 0)]
    simp only [Nat.cast_ofNat]
    rw [if_pos (by omega : 0 ≤ n + 13 ∧ n + 13 < 13)]
    rfl

/-- **C10, witness.**  The amended decoding theorem at reply `5` (in range:
entry 5, i.e. 200 baud) and at reply `15` (out of range: `IndexError`). -/
theorem C10_baud_decode_witness :
    ((0 : Int) ≤ 5 ∧ (5 : Int) ≤ 12 ∧
      (runOp get_rs232_baud_rate [Ev.ok 0 "", Ev.ok 0 "", Ev.ok 0 "5"]).1
        = .ok (BAUD_RATES_AVAILABLE.getD (5 : Int).toNat 0)) ∧
    ((13 : Int) ≤ 15 ∧
      (runOp get_rs232_baud_rate [Ev.ok 0 "", Ev.ok 0 "", Ev.ok 0 "15"]).1
        = .error .indexErr) :=
  ⟨⟨by decide, by decide,
    (C10_baud_decode "5" 5 (by decide) (by decide)).1 (by decide) (by decide)⟩,
   ⟨by decide,
    (C10_baud_decode "15" 15 (by decide) (by decide)).2.1 (Or.inl (by decide))⟩⟩

/-! ## C6: positional assembly of the calibration constants -/

/-- Stepping a `bindM` whose first component succeeds without touching the
state. -/
theorem bind_step {α β : Type} {m : M α} {x : α} (f : α → M β) {s : St}
    (h : m s = (.ok x, s)) : bindM m f s = f x s := by
  unfold bindM
  rw [h]

/-- Evaluating `assembleCal` on a 20-element field list of decimal strings:
pure positional selection, no state change. -/
theorem assembleCal_eval
    (v0 v1 v2 v3 v4 v5 v6 v7 v8 v9 : String)
    (v10 v11 v12 v13 v14 v15 v16 v17 v18 v19 : String)
    (hd0 : isDecimalStr v0 = true) (hd1 : isDecimalStr v1 = true)
    (hd2 : isDecimalStr v2 = true) (hd3 : isDecimalStr v3 = true)
    (hd4 : isDecimalStr v4 = true) (hd5 : isDecimalStr v5 = true)
    (hd6 : isDecimalStr v6 = true) (hd7 : isDecimalStr v7 = true)
    (hd8 : isDecimalStr v8 = true) (hd9 : isDecimalStr v9 = true)
    (hd10 : isDecimalStr v10 = true) (hd11 : isDecimalStr v11 = true)
    (hd12 : isDecimalStr v12 = true) (hd13 : isDecimalStr v13 = true)
    (hd14 : isDecimalStr v14 = true) (hd15 : isDecimalStr v15 = true)
    (hd16 : isDecimalStr v16 = true) (hd17 : isDecimalStr v17 = true)
    (hd18 : isDecimalStr v18 = true) (hd19 : isDecimalStr v19 = true) (s : St) :
    assembleCal (.list [v0, v1, v2, v3, v4, v5, v6, v7, v8, v9, v10, v11, v12, v13, v14, v15, v16, v17, v18, v19]) s
      = (.ok ⟨v5, v4, v0, v1, v2, v3, v6, v7, v8, v9, v10, v11, v12, v13, v14, v15,
              v16, v17, v18, v19⟩, s) := by
  have pv0 : pyValGet (.list [v0, v1, v2, v3, v4, v5, v6, v7, v8, v9, v10, v11, v12, v13, v14, v15, v16, v17, v18, v19]) 0 s = (.ok v0, s) := by simp [pyValGet, pyListGet]
  have pv1 : pyValGet (.list [v0, v1, v2, v3, v4, v5, v6, v7, v8, v9, v10, v11, v12, v13, v14, v15, v16, v17, v18, v19]) 1 s = (.ok v1, s) := by simp [pyValGet, pyListGet]
  have pv2 : pyValGet (.list [v0, v1, v2, v3, v4, v5, v6, v7, v8, v9, v10, v11, v12, v13, v14, v15, v16, v17, v18, v19]) 2 s = (.ok v2, s) := by simp [pyValGet, pyListGet]
  have pv3 : pyValGet (.list [v0, v1, v2, v3, v4, v5, v6, v7, v8, v9, v10, v11, v12, v13, v14, v15, v16, v17, v18, v19]) 3 s = (.ok v3, s) := by simp [pyValGet, pyListGet]
  have pv4 : pyValGet (.list [v0, v1, v2, v3, v4, v5, v6, v7, v8, v9, v10, v11, v12, v13, v14, v15, v16, v17, v18, v19]) 4 s = (.ok v4, s) := by simp [pyValGet, pyListGet]
  have pv5 : pyValGet (.list [v0, v1, v2, v3, v4, v5, v6, v7, v8, v9, v10, v11, v12, v13, v14, v15, v16, v17, v18, v19]) 5 s = (.ok v5, s) := by simp [pyValGet, pyListGet]
  have pv6 : pyValGet (.list [v0, v1, v2, v3, v4, v5, v6, v7, v8, v9, v10, v11, v12, v13, v14, v15, v16, v17, v18, v19]) 6 s = (.ok v6, s) := by simp [pyValGet, pyListGet]
  have pv7 : pyValGet (.list [v0, v1, v2, v3, v4, v5, v6, v7, v8, v9, v10, v11, v12, v13, v14, v15, v16, v17, v18, v19]) 7 s = (.ok v7, s) := by simp [pyValGet, pyListGet]
  have pv8 : pyValGet (.list [v0, v1, v2, v3, v4, v5, v6, v7, v8, v9, v10, v11, v12, v13, v14, v15, v16, v17, v18, v19]) 8 s = (.ok v8, s) := by simp [pyValGet, pyListGet]
  have pv9 : pyValGet (.list [v0, v1, v2, v3, v4, v5, v6, v7, v8, v9, v10, v11, v12, v13, v14, v15, v16, v17, v18, v19]) 9 s = (.ok v9, s) := by simp [pyValGet, pyListGet]
  have pv10 : pyValGet (.list [v0, v1, v2, v3, v4, v5, v6, v7, v8, v9, v10, v11, v12, v13, v14, v15, v16, v17, v18, v19]) 10 s = (.ok v10, s) := by simp [pyValGet, pyListGet]
  have pv11 : pyValGet (.list [v0, v1, v2, v3, v4, v5, v6, v7, v8, v9, v10, v11, v12, v13, v14, v15, v16, v17, v18, v19]) 11 s = (.ok v11, s) := by simp [pyValGet, pyListGet]
  have pv12 : pyValGet (.list [v0, v1, v2, v3, v4, v5, v6, v7, v8, v9, v10, v11, v12, v13, v14, v15, v16, v17, v18, v19]) 12 s = (.ok v12, s) := by simp [pyValGet, pyListGet]
  have pv13 : pyValGet (.list [v0, v1, v2, v3, v4, v5, v6, v7, v8, v9, v10, v11, v12, v13, v14, v15, v16, v17, v18, v19]) 13 s = (.ok v13, s) := by simp [pyValGet, pyListGet]
  have pv14 : pyValGet (.list [v0, v1, v2, v3, v4, v5, v6, v7, v8, v9, v10, v11, v12, v13, v14, v15, v16, v17, v18, v19]) 14 s = (.ok v14, s) := by simp [pyValGet, pyListGet]
  have pv15 : pyValGet (.list [v0, v1, v2, v3, v4, v5, v6, v7, v8, v9, v10, v11, v12, v13, v14, v15, v16, v17, v18, v19]) 15 s = (.ok v15, s) := by simp [pyValGet, pyListGet]
  have pv16 : pyValGet (.list [v0, v1, v2, v3, v4, v5, v6, v7, v8, v9, v10, v11, v12, v13, v14, v15, v16, v17, v18, v19]) 16 s = (.ok v16, s) := by simp [pyValGet, pyListGet]
  have pv17 : pyValGet (.list [v0, v1, v2, v3, v4, v5, v6, v7, v8, v9, v10, v11, v12, v13, v14, v15, v16, v17, v18, v19]) 17 s = (.ok v17, s) := by simp [pyValGet, pyListGet]
  have pv18 : pyValGet (.list [v0, v1, v2, v3, v4, v5, v6, v7, v8, v9, v10, v11, v12, v13, v14, v15, v16, v17, v18, v19]) 18 s = (.ok v18, s) := by simp [pyValGet, pyListGet]
  have pv19 : pyValGet (.list [v0, v1, v2, v3, v4, v5, v6, v7, v8, v9, v10, v11, v12, v13, v14, v15, v16, v17, v18, v19]) 19 s = (.ok v19, s) := by simp [pyValGet, pyListGet]
  have pd0 : pyDecimal v0 s = (.ok v0, s) := by unfold pyDecimal; rw [if_pos hd0]; rfl
  have pd1 : pyDecimal v1 s = (.ok v1, s) := by unfold pyDecimal; rw [if_pos hd1]; rfl
  have pd2 : pyDecimal v2 s = (.ok v2, s) := by unfold pyDecimal; rw [if_pos hd2]; rfl
  have pd3 : pyDecimal v3 s = (.ok v3, s) := by unfold pyDecimal; rw [if_pos hd3]; rfl
  have pd4 : pyDecimal v4 s = (.ok v4, s) := by unfold pyDecimal; rw [if_pos hd4]; rfl
  have pd5 : pyDecimal v5 s = (.ok v5, s) := by unfold pyDecimal; rw [if_pos hd5]; rfl
  have pd6 : pyDecimal v6 s = (.ok v6, s) := by unfold pyDecimal; rw [if_pos hd6]; rfl
  have pd7 : pyDecimal v7 s = (.ok v7, s) := by unfold pyDecimal; rw [if_pos hd7]; rfl
  have pd8 : pyDecimal v8 s = (.ok v8, s) := by unfold pyDecimal; rw [if_pos hd8]; rfl
  have pd9 : pyDecimal v9 s = (.ok v9, s) := by unfold pyDecimal; rw [if_pos hd9]; rfl
  have pd10 : pyDecimal v10 s = (.ok v10, s) := by unfold pyDecimal; rw [if_pos hd10]; rfl
  have pd11 : pyDecimal v11 s = (.ok v11, s) := by unfold pyDecimal; rw [if_pos hd11]; rfl
  have pd12 : pyDecimal v12 s = (.ok v12, s) := by unfold pyDecimal; rw [if_pos hd12]; rfl
  have pd13 : pyDecimal v13 s = (.ok v13, s) := by unfold pyDecimal; rw [if_pos hd13]; rfl
  have pd14 : pyDecimal v14 s = (.ok v14, s) := by unfold pyDecimal; rw [if_pos hd14]; rfl
  have pd15 : pyDecimal v15 s = (.ok v15, s) := by unfold pyDecimal; rw [if_pos hd15]; rfl
  have pd16 : pyDecimal v16 s = (.ok v16, s) := by unfold pyDecimal; rw [if_pos hd16]; rfl
  have pd17 : pyDecimal v17 s = (.ok v17, s) := by unfold pyDecimal; rw [if_pos hd17]; rfl
  have pd18 : pyDecimal v18 s = (.ok v18, s) := by unfold pyDecimal; rw [if_pos hd18]; rfl
  have pd19 : pyDecimal v19 s = (.ok v19, s) := by unfold pyDecimal; rw [if_pos hd19]; rfl
  unfold assembleCal
  simp only [bind_def]
  rw [bind_step _ pv5]
  rw [bind_step _ pd5]
  rw [bind_step _ pv4]
  rw [bind_step _ pd4]
  rw [bind_step _ pv0]
  rw [bind_step _ pd0]
  rw [bind_step _ pv1]
  rw [bind_step _ pd1]
  rw [bind_step _ pv2]
  rw [bind_step _ pd2]
  rw [bind_step _ pv3]
  rw [bind_step _ pd3]
  rw [bind_step _ pv6]
  rw [bind_step _ pd6]
  rw [bind_step _ pv7]
  rw [bind_step _ pd7]
  rw [bind_step _ pv8]
  rw [bind_step _ pd8]
  rw [bind_step _ pv9]
  rw [bind_step _ pd9]
  rw [bind_step _ pv10]
  rw [bind_step _ pd10]
  rw [bind_step _ pv11]
  rw [bind_step _ pd11]
  rw [bind_step _ pv12]
  rw [bind_step _ pd12]
  rw [bind_step _ pv13]
  rw [bind_step _ pd13]
  rw [bind_step _ pv14]
  rw [bind_step _ pd14]
  rw [bind_step _ pv15]
  rw [bind_step _ pd15]
  rw [bind_step _ pv16]
  rw [bind_step _ pd16]
  rw [bind_step _ pv17]
  rw [bind_step _ pd17]
  rw [bind_step _ pv18]
  rw [bind_step _ pd18]
  rw [bind_step _ pv19]
  rw [bind_step _ pd19]
  rfl

set_option maxRecDepth 8000 in
/-- **C6.**  With two scripted `GCAL` replies carrying 20 decimal fields in
order, `get_calibration_constants` issues exactly the two batched `GCAL`
commands (the combined single command would be 149 > 127 bytes) and assembles
the record purely by position: field 0 is the 10 V gain, field 5 the 0.2 V
gain, field 19 the ADC gain, and every other named field the corresponding
positional input. -/
theorem C6_calibration_constants
    (v0 v1 v2 v3 v4 v5 v6 v7 v8 v9 : String)
    (v10 v11 v12 v13 v14 v15 v16 v17 v18 v19 : String) (r1 r2 : String)
    (h1 : readParse r1 = .many [v0, v1, v2, v3, v4, v5, v6, v7, v8, v9])
    (h2 : readParse r2 = .many [v10, v11, v12, v13, v14, v15, v16, v17, v18, v19])
    (hdec : ∀ x ∈ [v0, v1, v2, v3, v4, v5, v6, v7, v8, v9, v10, v11, v12, v13, v14,
      v15, v16, v17, v18, v19], isDecimalStr x = true) :
    runOp get_calibration_constants
        [Ev.ok 0 "", Ev.ok 0 "", Ev.ok 0 r1, Ev.ok 0 "", Ev.ok 0 "", Ev.ok 0 r2]
      = (.ok ⟨v5, v4, v0, v1, v2, v3, v6, v7, v8, v9, v10, v11, v12, v13, v14, v15,
              v16, v17, v18, v19⟩,
         ⟨[], [Act.wr gcalCmd1, Act.spoll, Act.rd, Act.wr gcalCmd2, Act.spoll, Act.rd]⟩)
    ∧ writesOf [Act.wr gcalCmd1, Act.spoll, Act.rd, Act.wr gcalCmd2, Act.spoll, Act.rd]
        = [gcalCmd1, gcalCmd2]
    ∧ 127 < (gcalCmd1 ++ "," ++ gcalCmd2).data.length := by
  have hs1 : write0 gcalCmd1 = conn_write gcalCmd1 :=
    write0_of_sendable _ (by decide) (by decide)
  have hs2 : write0 gcalCmd2 = conn_write gcalCmd2 :=
    write0_of_sendable _ (by decide) (by decide)
  have hsp : spollValid 0 = true := by decide
  have ht0 : (0 : Int).toNat = 0 := by decide
  have hA : (0 : Nat) &&& 32 = 0 := by decide
  refine ⟨?_, by decide, by decide⟩
  simp only [List.mem_cons, List.not_mem_nil, or_false, forall_eq_or_imp, forall_eq] at hdec
  obtain ⟨hd0, hd1, hd2, hd3, hd4, hd5, hd6, hd7, hd8, hd9, hd10, hd11, hd12, hd13,
    hd14, hd15, hd16, hd17, hd18, hd19⟩ := hdec
  simp [runOp, get_calibration_constants, query, write, hs1, hs2, conn_write, read,
    conn_read, serial_poll, conn_serial_poll, hsp, ht0, hA, h1, h2, writeErrCheck,
    pyAdd, ofReadResult]
  exact assembleCal_eval _ _ _ _ _ _ _ _ _ _ _ _ _ _ _ _ _ _ _ _
    hd0 hd1 hd2 hd3 hd4 hd5 hd6 hd7 hd8 hd9 hd10 hd11 hd12 hd13 hd14 hd15 hd16 hd17 hd18 hd19 _

set_option maxRecDepth 8000 in
/-- **C6, witness.**  The assembly theorem at the concrete fields
`"0"`, `"1"`, …, `"19"`. -/
theorem C6_calibration_constants_witness :
    runOp get_calibration_constants
        [Ev.ok 0 "", Ev.ok 0 "", Ev.ok 0 "0,1,2,3,4,5,6,7,8,9",
         Ev.ok 0 "", Ev.ok 0 "", Ev.ok 0 "10,11,12,13,14,15,16,17,18,19"]
      = (.ok ⟨"5", "4", "0", "1", "2", "3", "6", "7", "8", "9", "10", "11", "12", "13",
              "14", "15", "16", "17", "18", "19"⟩,
         ⟨[], [Act.wr gcalCmd1, Act.spoll, Act.rd, Act.wr gcalCmd2, Act.spoll, Act.rd]⟩) :=
  (C6_calibration_constants "0" "1" "2" "3" "4" "5" "6" "7" "8" "9" "10" "11" "12" "13"
    "14" "15" "16" "17" "18" "19" "0,1,2,3,4,5,6,7,8,9" "10,11,12,13,14,15,16,17,18,19"
    (by decide) (by decide) (by decide)).1



/-! ## C3: the self-test state machines -/

/-- **C3.**  The three self-tests against scripted transports.  Success runs:
with the initial mask-set acknowledged, an idle pre-check, the trigger
(`TSTD`/`TSTA`/`TSTH`) accepted, and each poll showing `SRQ | DOING_STATE_CHANGE`
(68) with the documented transient states (digital 112, 113, 114; analog
16, 128, 130; high voltage 16, 129) followed by idle, the operation returns
without raising and the final mask reset is on the trace.  Error runs: when a
poll shows the error-condition bit (96 = `SRQ | ERROR_CONDITION`), the
operation fetches the error code over `GERR` and, for any reply decoding to a
self-test fault code `n`, raises the self-test-specific error carrying `n`
(after the `finally` mask reset). -/
theorem C3_selftests (t u : String) (n : Int)
    (h1 : readParse t = .one u) (h2 : pyInt u = some n) (h3 : isSelfTestCode n = true) :
    runOp (selftest_digital 4)
      [Ev.ok 0 "", Ev.ok 0 "", Ev.ok 0 "", Ev.ok 0 "", Ev.ok 0 "0",
       Ev.ok 0 "", Ev.ok 0 "",
       Ev.ok 0 "", Ev.ok 68 "", Ev.ok 0 "", Ev.ok 0 "", Ev.ok 0 "112",
       Ev.ok 0 "", Ev.ok 68 "", Ev.ok 0 "", Ev.ok 0 "", Ev.ok 0 "113",
       Ev.ok 0 "", Ev.ok 68 "", Ev.ok 0 "", Ev.ok 0 "", Ev.ok 0 "114",
       Ev.ok 0 "", Ev.ok 68 "", Ev.ok 0 "", Ev.ok 0 "", Ev.ok 0 "0",
       Ev.ok 0 "", Ev.ok 0 ""]
      = (.ok (),
         ⟨[], [Act.wr "SSRQ 4", Act.spoll,
               Act.wr "GDNG", Act.spoll, Act.rd,
               Act.wr "TSTD", Act.spoll,
               Act.waitSRQ, Act.spoll, Act.wr "GDNG", Act.spoll, Act.rd,
               Act.waitSRQ, Act.spoll, Act.wr "GDNG", Act.spoll, Act.rd,
               Act.waitSRQ, Act.spoll, Act.wr "GDNG", Act.spoll, Act.rd,
               Act.waitSRQ, Act.spoll, Act.wr "GDNG", Act.spoll, Act.rd,
               Act.wr "SSRQ 0", Act.spoll]⟩) ∧
    runOp (selftest_analog 4)
      [Ev.ok 0 "", Ev.ok 0 "", Ev.ok 0 "", Ev.ok 0 "", Ev.ok 0 "0",
       Ev.ok 0 "", Ev.ok 0 "",
       Ev.ok 0 "", Ev.ok 68 "", Ev.ok 0 "", Ev.ok 0 "", Ev.ok 0 "16",
       Ev.ok 0 "", Ev.ok 68 "", Ev.ok 0 "", Ev.ok 0 "", Ev.ok 0 "128",
       Ev.ok 0 "", Ev.ok 68 "", Ev.ok 0 "", Ev.ok 0 "", Ev.ok 0 "130",
       Ev.ok 0 "", Ev.ok 68 "", Ev.ok 0 "", Ev.ok 0 "", Ev.ok 0 "0",
       Ev.ok 0 "", Ev.ok 0 ""]
      = (.ok (),
         ⟨[], [Act.wr "SSRQ 4", Act.spoll,
               Act.wr "GDNG", Act.spoll, Act.rd,
               Act.wr "TSTA", Act.spoll,
               Act.waitSRQ, Act.spoll, Act.wr "GDNG", Act.spoll, Act.rd,
               Act.waitSRQ, Act.spoll, Act.wr "GDNG", Act.spoll, Act.rd,
               Act.waitSRQ, Act.spoll, Act.wr "GDNG", Act.spoll, Act.rd,
               Act.waitSRQ, Act.spoll, Act.wr "GDNG", Act.spoll, Act.rd,
               Act.wr "SSRQ 0", Act.spoll]⟩) ∧
    runOp (selftest_hv 3)
      [Ev.ok 0 "", Ev.ok 0 "", Ev.ok 0 "", Ev.ok 0 "", Ev.ok 0 "0",
       Ev.ok 0 "", Ev.ok 0 "",
       Ev.ok 0 "", Ev.ok 68 "", Ev.ok 0 "", Ev.ok 0 "", Ev.ok 0 "16",
       Ev.ok 0 "", Ev.ok 68 "", Ev.ok 0 "", Ev.ok 0 "", Ev.ok 0 "129",
       Ev.ok 0 "", Ev.ok 68 "", Ev.ok 0 "", Ev.ok 0 "", Ev.ok 0 "0",
       Ev.ok 0 "", Ev.ok 0 ""]
      = (.ok (),
         ⟨[], [Act.wr "SSRQ 4", Act.spoll,
               Act.wr "GDNG", Act.spoll, Act.rd,
               Act.wr "TSTH", Act.spoll,
               Act.waitSRQ, Act.spoll, Act.wr "GDNG", Act.spoll, Act.rd,
               Act.waitSRQ, Act.spoll, Act.wr "GDNG", Act.spoll, Act.rd,
               Act.waitSRQ, Act.spoll, Act.wr "GDNG", Act.spoll, Act.rd,
               Act.wr "SSRQ 0", Act.spoll]⟩) ∧
    runOp (selftest_digital 1)
      [Ev.ok 0 "", Ev.ok 0 "", Ev.ok 0 "", Ev.ok 0 "", Ev.ok 0 "0",
       Ev.ok 0 "", Ev.ok 0 "",
       Ev.ok 0 "", Ev.ok 96 "", Ev.ok 0 "", Ev.ok 0 t,
       Ev.ok 0 "", Ev.ok 0 ""]
      = (.error (.selftestErr "Digital" n),
         ⟨[], [Act.wr "SSRQ 4", Act.spoll,
               Act.wr "GDNG", Act.spoll, Act.rd,
               Act.wr "TSTD", Act.spoll,
               Act.waitSRQ, Act.spoll, Act.wr "GERR", Act.rd,
               Act.wr "SSRQ 0", Act.spoll]⟩) ∧
    runOp (selftest_analog 1)
      [Ev.ok 0 "", Ev.ok 0 "", Ev.ok 0 "", Ev.ok 0 "", Ev.ok 0 "0",
       Ev.ok 0 "", Ev.ok 0 "",
       Ev.ok 0 "", Ev.ok 96 "", Ev.ok 0 "", Ev.ok 0 t,
       Ev.ok 0 "", Ev.ok 0 ""]
      = (.error (.selftestErr "Analog" n),
         ⟨[], [Act.wr "SSRQ 4", Act.spoll,
               Act.wr "GDNG", Act.spoll, Act.rd,
               Act.wr "TSTA", Act.spoll,
               Act.waitSRQ, Act.spoll, Act.wr "GERR", Act.rd,
               Act.wr "SSRQ 0", Act.spoll]⟩) ∧
    runOp (selftest_hv 1)
      [Ev.ok 0 "", Ev.ok 0 "", Ev.ok 0 "", Ev.ok 0 "", Ev.ok 0 "0",
       Ev.ok 0 "", Ev.ok 0 "",
       Ev.ok 0 "", Ev.ok 96 "", Ev.ok 0 "", Ev.ok 0 t,
       Ev.ok 0 "", Ev.ok 0 ""]
      = (.error (.selftestErr "High voltage" n),
         ⟨[], [Act.wr "SSRQ 4", Act.spoll,
               Act.wr "GDNG", Act.spoll, Act.rd,
               Act.wr "TSTH", Act.spoll,
               Act.waitSRQ, Act.spoll, Act.wr "GERR", Act.rd,
               Act.wr "SSRQ 0", Act.spoll]⟩) := by
  have hgd : write0 "GDNG" = conn_write "GDNG" := write0_of_sendable _ (by decide) (by decide)
  have htd : write0 "TSTD" = conn_write "TSTD" := write0_of_sendable _ (by decide) (by decide)
  have hta : write0 "TSTA" = conn_write "TSTA" := write0_of_sendable _ (by decide) (by decide)
  have hth : write0 "TSTH" = conn_write "TSTH" := write0_of_sendable _ (by decide) (by decide)
  have hge : write0 "GERR" = conn_write "GERR" := write0_of_sendable _ (by decide) (by decide)
  have hsp0 : spollValid 0 = true := by decide
  have hsp68 : spollValid 68 = true := by decide
  have hsp96 : spollValid 96 = true := by decide
  have ht0 : (0 : Int).toNat = 0 := by decide
  have ht68 : (68 : Int).toNat = 68 := by decide
  have ht96 : (96 : Int).toNat = 96 := by decide
  have hA0 : (0 : Nat) &&& 32 = 0 := by decide
  have hA68 : (68 : Nat) &&& 32 = 0 := by decide
  have hA96 : (96 : Nat) &&& 32 = 32 := by decide
  have hB68 : (68 : Nat) &&& 4 = 4 := by decide
  have hr0 : readParse "0" = .one "0" := by decide
  have hr112 : readParse "112" = .one "112" := by decide
  have hr113 : readParse "113" = .one "113" := by decide
  have hr114 : readParse "114" = .one "114" := by decide
  have hr16 : readParse "16" = .one "16" := by decide
  have hr128 : readParse "128" = .one "128" := by decide
  have hr129 : readParse "129" = .one "129" := by decide
  have hr130 : readParse "130" = .one "130" := by decide
  have hp0 : pyInt "0" = some 0 := by decide
  have hp112 : pyInt "112" = some 112 := by decide
  have hp113 : pyInt "113" = some 113 := by decide
  have hp114 : pyInt "114" = some 114 := by decide
  have hp16 : pyInt "16" = some 16 := by decide
  have hp128 : pyInt "128" = some 128 := by decide
  have hp129 : pyInt "129" = some 129 := by decide
  have hp130 : pyInt "130" = some 130 := by decide
  have hd0 : isDeviceState 0 = true := by decide
  have hd112 : isDeviceState 112 = true := by decide
  have hd113 : isDeviceState 113 = true := by decide
  have hd114 : isDeviceState 114 = true := by decide
  have hd16 : isDeviceState 16 = true := by decide
  have hd128 : isDeviceState 128 = true := by decide
  have hd129 : isDeviceState 129 = true := by decide
  have hd130 : isDeviceState 130 = true := by decide
  refine ⟨?_, ?_, ?_, ?_, ?_, ?_⟩ <;>
  simp [runOp, selftest_digital, selftest_analog, selftest_hv,
    set_srq_mask_4_eq, set_srq_mask_0_eq, selftestBody,
    wait_for_idle, waitForIdleLoop, selftestLoop, wait_for_rqs, get_state, query,
    write, writeErrCheck, read, get_error, serial_poll, sendable_SSRQ4, sendable_SSRQ0,
    hgd, htd, hta, hth, hge, conn_write, conn_read, conn_serial_poll, conn_wait,
    hsp0, hsp68, hsp96, ht0, ht68, ht96, hA0, hA68, hA96, hB68,
    hr0, hr112, hr113, hr114, hr16, hr128, hr129, hr130,
    hp0, hp112, hp113, hp114, hp16, hp128, hp129, hp130,
    hd0, hd112, hd113, hd114, hd16, hd128, hd129, hd130, h1, h2, h3]

/-- **C3, witness.**  The error branch of the digital self-test at the
concrete `GERR` reply `"16"` (fault code 16, the main-CPU self-test failure
code). -/
theorem C3_selftests_witness :
    readParse "16" = .one "16" ∧ pyInt "16" = some 16 ∧ isSelfTestCode 16 = true ∧
    runOp (selftest_digital 1)
      [Ev.ok 0 "", Ev.ok 0 "", Ev.ok 0 "", Ev.ok 0 "", Ev.ok 0 "0",
       Ev.ok 0 "", Ev.ok 0 "",
       Ev.ok 0 "", Ev.ok 96 "", Ev.ok 0 "", Ev.ok 0 "16",
       Ev.ok 0 "", Ev.ok 0 ""]
      = (.error (.selftestErr "Digital" 16),
         ⟨[], [Act.wr "SSRQ 4", Act.spoll,
               Act.wr "GDNG", Act.spoll, Act.rd,
               Act.wr "TSTD", Act.spoll,
               Act.waitSRQ, Act.spoll, Act.wr "GERR", Act.rd,
               Act.wr "SSRQ 0", Act.spoll]⟩) :=
  ⟨by decide, by decide, by decide,
   (C3_selftests "16" "16" 16 (by decide) (by decide) (by decide)).2.2.2.1⟩



/-! ## C7: the baud-rate round trip -/

/-- The embedded Python membership test agrees with list membership. -/
theorem pyContains_iff (l : List ℚ) (x : ℚ) : pyContains l x = true ↔ x ∈ l := by
  induction l with
  | nil => simp [pyContains]
  | cons a rest ih =>
    unfold pyContains
    by_cases h : a = x
    · simp [h]
    · rw [if_neg h, ih, List.mem_cons]
      constructor
      · exact Or.inr
      · rintro (rfl | hx)
        · exact absurd rfl h
        · exact hx

/-- A `GBDR` reply holding an in-range index is decoded through the table. -/
theorem baud_get_run (t : String) (n : Nat)
    (hrp : readParse t = .one t) (hpi : pyInt t = some (n : Int)) (hn : n < 13) :
    runOp get_rs232_baud_rate [Ev.ok 0 "", Ev.ok 0 "", Ev.ok 0 t]
      = (.ok (BAUD_RATES_AVAILABLE.getD n 0),
         ⟨[], [Act.wr "GBDR", Act.spoll, Act.rd]⟩) := by
  have hsend : write0 "GBDR" = conn_write "GBDR" := write0_of_sendable _ (by decide) (by decide)
  have hsp : spollValid 0 = true := by decide
  have ht0 : (0 : Int).toNat = 0 := by decide
  have hA : (0 : Nat) &&& 32 = 0 := by decide
  have hlen : BAUD_RATES_AVAILABLE.length = 13 := rfl
  have hpre : runOp get_rs232_baud_rate [Ev.ok 0 "", Ev.ok 0 "", Ev.ok 0 t]
      = pyTupleGet BAUD_RATES_AVAILABLE (n : Int) ⟨[], [Act.wr "GBDR", Act.spoll, Act.rd]⟩ := by
    simp [runOp, get_rs232_baud_rate, query, write, hsend, conn_write, read, conn_read,
      serial_poll, conn_serial_poll, hsp, ht0, hA, hrp, hpi, writeErrCheck]
  rw [hpre]
  unfold pyTupleGet
  rw [hlen, if_neg (by omega : ¬ (n : Int) < 0)]
  simp only [Nat.cast_ofNat]
  rw [if_pos (by omega : 0 ≤ (n : Int) ∧ (n : Int) < 13)]
  rw [Int.toNat_natCast]
  rfl

/-- A successful `set_rs232_baud_rate` run: validation passes, the index is
written as `SBDR <index>`, the state-change mask is raised and (after idle)
cleared again. -/
theorem baud_set_run (value : ℚ) (cmdS : String)
    (hy : pyContains BAUD_RATES_AVAILABLE value = true)
    (hc : "SBDR " ++ natToStr (pyIndex BAUD_RATES_AVAILABLE value) = cmdS)
    (hsend : write0 cmdS = conn_write cmdS) :
    runOp (set_rs232_baud_rate value 1)
      [Ev.ok 0 "", Ev.ok 0 "", Ev.ok 0 "", Ev.ok 0 "", Ev.ok 0 "", Ev.ok 0 "",
       Ev.ok 0 "0", Ev.ok 0 "", Ev.ok 0 ""]
      = (.ok (), ⟨[], [Act.wr cmdS, Act.spoll, Act.wr "SSRQ 4", Act.spoll,
                       Act.wr "GDNG", Act.spoll, Act.rd, Act.wr "SSRQ 0", Act.spoll]⟩) := by
  have hgd : write0 "GDNG" = conn_write "GDNG" := write0_of_sendable _ (by decide) (by decide)
  have hsp : spollValid 0 = true := by decide
  have ht0 : (0 : Int).toNat = 0 := by decide
  have hA : (0 : Nat) &&& 32 = 0 := by decide
  have hr0 : readParse "0" = .one "0" := by decide
  have hp0 : pyInt "0" = some 0 := by decide
  have hd0 : isDeviceState 0 = true := by decide
  unfold set_rs232_baud_rate
  rw [if_pos hy]
  simp [runOp, baudBody, hc, set_srq_mask_4_eq, set_srq_mask_0_eq, wait_for_idle,
    waitForIdleLoop, get_state, query, write, writeErrCheck, read, serial_poll,
    hsend, sendable_SSRQ4, sendable_SSRQ0, hgd, conn_write, conn_read,
    conn_serial_poll, hsp, ht0, hA, hr0, hp0, hd0]

/-- **C7.**  For every rate in `BAUD_RATES_AVAILABLE`, `set_rs232_baud_rate`
writes `SBDR <index>` with the rate's table index, and a `GBDR` reply carrying
exactly that index decodes back to the same rate through
`get_rs232_baud_rate`'s table lookup (set, then get, round-trips).  For every
value not in the table, `set_rs232_baud_rate` raises `ValueError` with the
script untouched and the trace empty: no bus I/O. -/
theorem C7_baud_roundtrip (value : ℚ) (fuel : Nat) (script : List Ev) :
    (pyContains BAUD_RATES_AVAILABLE value = true →
      runOp (set_rs232_baud_rate value 1)
        [Ev.ok 0 "", Ev.ok 0 "", Ev.ok 0 "", Ev.ok 0 "", Ev.ok 0 "", Ev.ok 0 "",
         Ev.ok 0 "0", Ev.ok 0 "", Ev.ok 0 ""]
        = (.ok (), ⟨[], [Act.wr ("SBDR " ++ natToStr (pyIndex BAUD_RATES_AVAILABLE value)),
            Act.spoll, Act.wr "SSRQ 4", Act.spoll, Act.wr "GDNG", Act.spoll, Act.rd,
            Act.wr "SSRQ 0", Act.spoll]⟩)
      ∧ runOp get_rs232_baud_rate
          [Ev.ok 0 "", Ev.ok 0 "", Ev.ok 0 (natToStr (pyIndex BAUD_RATES_AVAILABLE value))]
          = (.ok value, ⟨[], [Act.wr "GBDR", Act.spoll, Act.rd]⟩)) ∧
    (pyContains BAUD_RATES_AVAILABLE value = false →
      set_rs232_baud_rate value fuel ⟨script, []⟩ = (.error .valueErr, ⟨script, []⟩)) := by
  constructor
  · intro hv
    have hm : value ∈ BAUD_RATES_AVAILABLE := (pyContains_iff _ _).mp hv
    fin_cases hm
    · have hidx : pyIndex BAUD_RATES_AVAILABLE 50 = 0 := by
        norm_num [pyIndex, BAUD_RATES_AVAILABLE]
      refine ⟨?_, ?_⟩
      · rw [hidx, (by decide : "SBDR " ++ natToStr 0 = "SBDR 0")]
        exact baud_set_run 50 "SBDR 0" hv (by rw [hidx]; decide)
          (write0_of_sendable _ (by decide) (by decide))
      · rw [hidx, (by decide : natToStr 0 = "0")]
        exact baud_get_run "0" 0 (by decide) (by decide) (by omega)
    · have hidx : pyIndex BAUD_RATES_AVAILABLE 75 = 1 := by
        norm_num [pyIndex, BAUD_RATES_AVAILABLE]
      refine ⟨?_, ?_⟩
      · rw [hidx, (by decide : "SBDR " ++ natToStr 1 = "SBDR 1")]
        exact baud_set_run 75 "SBDR 1" hv (by rw [hidx]; decide)
          (write0_of_sendable _ (by decide) (by decide))
      · rw [hidx, (by decide : natToStr 1 = "1")]
        exact baud_get_run "1" 1 (by decide) (by decide) (by omega)
    · have hidx : pyIndex BAUD_RATES_AVAILABLE 110 = 2 := by
        norm_num [pyIndex, BAUD_RATES_AVAILABLE]
      refine ⟨?_, ?_⟩
      · rw [hidx, (by decide : "SBDR " ++ natToStr 2 = "SBDR 2")]
        exact baud_set_run 110 "SBDR 2" hv (by rw [hidx]; decide)
          (write0_of_sendable _ (by decide) (by decide))
      · rw [hidx, (by decide : natToStr 2 = "2")]
        exact baud_get_run "2" 2 (by decide) (by decide) (by omega)
    · have hidx : pyIndex BAUD_RATES_AVAILABLE 134.5 = 3 := by
        norm_num [pyIndex, BAUD_RATES_AVAILABLE]
      refine ⟨?_, ?_⟩
      · rw [hidx, (by decide : "SBDR " ++ natToStr 3 = "SBDR 3")]
        exact baud_set_run 134.5 "SBDR 3" hv (by rw [hidx]; decide)
          (write0_of_sendable _ (by decide) (by decide))
      · rw [hidx, (by decide : natToStr 3 = "3")]
        exact baud_get_run "3" 3 (by decide) (by decide) (by omega)
    · have hidx : pyIndex BAUD_RATES_AVAILABLE 150 = 4 := by
        norm_num [pyIndex, BAUD_RATES_AVAILABLE]
      refine ⟨?_, ?_⟩
      · rw [hidx, (by decide : "SBDR " ++ natToStr 4 = "SBDR 4")]
        exact baud_set_run 150 "SBDR 4" hv (by rw [hidx]; decide)
          (write0_of_sendable _ (by decide) (by decide))
      · rw [hidx, (by decide : natToStr 4 = "4")]
        exact baud_get_run "4" 4 (by decide) (by decide) (by omega)
    · have hidx : pyIndex BAUD_RATES_AVAILABLE 200 = 5 := by
        norm_num [pyIndex, BAUD_RATES_AVAILABLE]
      refine ⟨?_, ?_⟩
      · rw [hidx, (by decide : "SBDR " ++ natToStr 5 = "SBDR 5")]
        exact baud_set_run 200 "SBDR 5" hv (by rw [hidx]; decide)
          (write0_of_sendable _ (by decide) (by decide))
      · rw [hidx, (by decide : natToStr 5 = "5")]
        exact baud_get_run "5" 5 (by decide) (by decide) (by omega)
    · have hidx : pyIndex BAUD_RATES_AVAILABLE 300 = 6 := by
        norm_num [pyIndex, BAUD_RATES_AVAILABLE]
      refine ⟨?_, ?_⟩
      · rw [hidx, (by decide : "SBDR " ++ natToStr 6 = "SBDR 6")]
        exact baud_set_run 300 "SBDR 6" hv (by rw [hidx]; decide)
          (write0_of_sendable _ (by decide) (by decide))
      · rw [hidx, (by decide : natToStr 6 = "6")]
        exact baud_get_run "6" 6 (by decide) (by decide) (by omega)
    · have hidx : pyIndex BAUD_RATES_AVAILABLE 600 = 7 := by
        norm_num [pyIndex, BAUD_RATES_AVAILABLE]
      refine ⟨?_, ?_⟩
      · rw [hidx, (by decide : "SBDR " ++ natToStr 7 = "SBDR 7")]
        exact baud_set_run 600 "SBDR 7" hv (by rw [hidx]; decide)
          (write0_of_sendable _ (by decide) (by decide))
      · rw [hidx, (by decide : natToStr 7 = "7")]
        exact baud_get_run "7" 7 (by decide) (by decide) (by omega)
    · have hidx : pyIndex BAUD_RATES_AVAILABLE 1200 = 8 := by
        norm_num [pyIndex, BAUD_RATES_AVAILABLE]
      refine ⟨?_, ?_⟩
      · rw [hidx, (by decide : "SBDR " ++ natToStr 8 = "SBDR 8")]
        exact baud_set_run 1200 "SBDR 8" hv (by rw [hidx]; decide)
          (write0_of_sendable _ (by decide) (by decide))
      · rw [hidx, (by decide : natToStr 8 = "8")]
        exact baud_get_run "8" 8 (by decide) (by decide) (by omega)
    · have hidx : pyIndex BAUD_RATES_AVAILABLE 1800 = 9 := by
        norm_num [pyIndex, BAUD_RATES_AVAILABLE]
      refine ⟨?_, ?_⟩
      · rw [hidx, (by decide : "SBDR " ++ natToStr 9 = "SBDR 9")]
        exact baud_set_run 1800 "SBDR 9" hv (by rw [hidx]; decide)
          (write0_of_sendable _ (by decide) (by decide))
      · rw [hidx, (by decide : natToStr 9 = "9")]
        exact baud_get_run "9" 9 (by decide) (by decide) (by omega)
    · have hidx : pyIndex BAUD_RATES_AVAILABLE 2400 = 10 := by
        norm_num [pyIndex, BAUD_RATES_AVAILABLE]
      refine ⟨?_, ?_⟩
      · rw [hidx, (by decide : "SBDR " ++ natToStr 10 = "SBDR 10")]
        exact baud_set_run 2400 "SBDR 10" hv (by rw [hidx]; decide)
          (write0_of_sendable _ (by decide) (by decide))
      · rw [hidx, (by decide : natToStr 10 = "10")]
        exact baud_get_run "10" 10 (by decide) (by decide) (by omega)
    · have hidx : pyIndex BAUD_RATES_AVAILABLE 4800 = 11 := by
        norm_num [pyIndex, BAUD_RATES_AVAILABLE]
      refine ⟨?_, ?_⟩
      · rw [hidx, (by decide : "SBDR " ++ natToStr 11 = "SBDR 11")]
        exact baud_set_run 4800 "SBDR 11" hv (by rw [hidx]; decide)
          (write0_of_sendable _ (by decide) (by decide))
      · rw [hidx, (by decide : natToStr 11 = "11")]
        exact baud_get_run "11" 11 (by decide) (by decide) (by omega)
    · have hidx : pyIndex BAUD_RATES_AVAILABLE 9600 = 12 := by
        norm_num [pyIndex, BAUD_RATES_AVAILABLE]
      refine ⟨?_, ?_⟩
      · rw [hidx, (by decide : "SBDR " ++ natToStr 12 = "SBDR 12")]
        exact baud_set_run 9600 "SBDR 12" hv (by rw [hidx]; decide)
          (write0_of_sendable _ (by decide) (by decide))
      · rw [hidx, (by decide : natToStr 12 = "12")]
        exact baud_get_run "12" 12 (by decide) (by decide) (by omega)
  · intro hv
    unfold set_rs232_baud_rate
    rw [if_neg (by rw [hv]; exact Bool.false_ne_true)]
    rfl

theorem pyContains_4800 : pyContains BAUD_RATES_AVAILABLE 4800 = true := by
  norm_num [pyContains, BAUD_RATES_AVAILABLE]

theorem pyContains_123 : pyContains BAUD_RATES_AVAILABLE 123 = false := by
  norm_num [pyContains, BAUD_RATES_AVAILABLE]

/-- **C7, witness.**  The round trip at 4800 baud (index 11) and the
validation rejection at the non-member rate 123. -/
theorem C7_baud_roundtrip_witness :
    pyContains BAUD_RATES_AVAILABLE 4800 = true ∧
    runOp get_rs232_baud_rate
        [Ev.ok 0 "", Ev.ok 0 "", Ev.ok 0 (natToStr (pyIndex BAUD_RATES_AVAILABLE 4800))]
      = (.ok 4800, ⟨[], [Act.wr "GBDR", Act.spoll, Act.rd]⟩) ∧
    pyContains BAUD_RATES_AVAILABLE 123 = false ∧
    set_rs232_baud_rate 123 0 ⟨[], []⟩ = (.error .valueErr, ⟨[], []⟩) :=
  ⟨pyContains_4800,
   ((C7_baud_roundtrip 4800 0 []).1 pyContains_4800).2,
   pyContains_123,
   (C7_baud_roundtrip 123 0 []).2 pyContains_123⟩

end Fluke5440B
